import Mathlib

/-!
Verification of the web-play client core of the `ts-bf6-portal` repository.

The development shallowly embeds the TypeScript source of
`src/webplay/playweb-client.ts` (gRPC-Web frame codec, minimal protobuf
request encoder, play-element document model, `PlayElementModifier`
operations, and the `updatePlayElement` reconciliation algorithm) and of the
declarative config translator (`convertAssetRestrictionToCategory` and
friends).  Byte sequences are `List Nat` (each entry one octet), JavaScript
`undefined`/`null` is `Option`, thrown exceptions are `Except.error`, and
network calls are recorded in an explicit trace of RPC invocations instead of
being performed.
-/

namespace BF6

/-- UTF-8 bytes of a string as natural numbers; models `TextEncoder.encode`
and `Buffer.from(s, 'utf8')`. -/
def utf8Bytes (s : String) : List Nat :=
  s.toUTF8.toList.map (fun b => b.toNat)

/-- Byte of a byte sequence at index `i` (0 when out of range; all reads in
the embedded code are guarded to be in range). -/
def byteAt (data : List Nat) (i : Nat) : Nat := data.getD i 0

/-- Big-endian 4-byte encoding of a number, reduced mod 2^32; models
`DataView.setUint32(off, n, false)`. -/
def be32 (n : Nat) : List Nat :=
  let m := n % 4294967296
  [m / 16777216, m / 65536 % 256, m / 256 % 256, m % 256]

/-- Big-endian 32-bit read at an offset; models
`DataView.getUint32(off, false)`. -/
def readBE32 (data : List Nat) (off : Nat) : Nat :=
  byteAt data off * 16777216 + byteAt data (off + 1) * 65536 +
    byteAt data (off + 2) * 256 + byteAt data (off + 3)

/-- translation of `encodeGrpcWebFrame`: flag byte 0 (uncompressed),
big-endian 32-bit payload length, then the payload. -/
def encodeGrpcWebFrame (payload : List Nat) : List Nat :=
  0 :: (be32 payload.length ++ payload)

/-- JavaScript regexp class `\s` restricted to the ASCII range (space, tab,
newline, carriage return, form feed, vertical tab). -/
def isWsByte (b : Nat) : Bool :=
  b = 32 || b = 9 || b = 10 || b = 13 || b = 12 || b = 11

/-- ASCII decimal digit test, the regexp class `\d`. -/
def isDigitByte (b : Nat) : Bool := 48 ≤ b && b ≤ 57

/-- Carriage return or newline, the regexp class `[\r\n]`. -/
def isCrLfByte (b : Nat) : Bool := b = 13 || b = 10

/-- Renders a list of ASCII byte values as a string. -/
def bytesToAscii (bs : List Nat) : String := String.mk (bs.map Char.ofNat)

/-- The literal bytes of the trailer key matched by `/grpc-status:/`. -/
def grpcStatusPat : List Nat := utf8Bytes "grpc-status:"

/-- The literal bytes of the trailer key matched by `/grpc-message:/`. -/
def grpcMessagePat : List Nat := utf8Bytes "grpc-message:"

/-- Attempts the pattern `grpc-status:\s*(\d+)` at the head of `l`, returning
the captured digit group. -/
def statusAt (l : List Nat) : Option String :=
  if grpcStatusPat.isPrefixOf l then
    let rest := (l.drop grpcStatusPat.length).dropWhile isWsByte
    let digits := rest.takeWhile isDigitByte
    if digits.isEmpty then none else some (bytesToAscii digits)
  else none

/-- Leftmost match of `grpc-status:\s*(\d+)` over the trailer bytes; models
`trailerText.match(/grpc-status:\s*(\d+)/)` (the patterns involved are pure
ASCII, so searching the UTF-8 bytes coincides with searching the decoded
text). -/
def searchStatusIn : List Nat → Option String
  | [] => none
  | b :: t =>
    match statusAt (b :: t) with
    | some s => some s
    | none => searchStatusIn t

/-- Attempts the pattern `grpc-message:\s*([^\r\n]+)` at the head of `l`,
returning the captured group.  The greedy `\s*` backtracks by at most the
trailing non-CRLF whitespace when the input ends in whitespace, which the
`else` branch reproduces. -/
def messageAt (l : List Nat) : Option String :=
  if grpcMessagePat.isPrefixOf l then
    let after := l.drop grpcMessagePat.length
    let rest := after.dropWhile isWsByte
    if rest.isEmpty then
      match (after.takeWhile isWsByte).reverse.find? (fun b => !(isCrLfByte b)) with
      | some b => some (bytesToAscii [b])
      | none => none
    else
      some (bytesToAscii (rest.takeWhile (fun b => !(isCrLfByte b))))
  else none

/-- Leftmost match of `grpc-message:\s*([^\r\n]+)` over the trailer bytes. -/
def searchMessageIn : List Nat → Option String
  | [] => none
  | b :: t =>
    match messageAt (b :: t) with
    | some s => some s
    | none => searchMessageIn t

/-- The two gRPC trailer entries `unwrapGrpcWebMessage` reads from the HTTP
response headers (`headers.get` returning `null` is `none`). -/
structure GrpcHeaders where
  grpcStatus : Option String
  grpcMessage : Option String

/-- models the JavaScript expression `grpcMessage || 'Unknown error'`
(empty strings are falsy). -/
def orUnknownError (m : Option String) : String :=
  match m with
  | some s => if s = "" then "Unknown error" else s
  | none => "Unknown error"

/-- Error text thrown for a 0-byte body without a success status. -/
def emptyBodyAuthMsg : String :=
  "Invalid gRPC-Web response: empty response (0 bytes). This usually indicates an authentication failure - check your session ID."

/-- Error text thrown for a 1..4-byte body. -/
def tooShortMsg (n : Nat) : String :=
  "Invalid gRPC-Web response: too short (got " ++ toString n ++ " bytes, need at least 5)"

/-- translation of `unwrapGrpcWebMessage`: parses one gRPC-Web frame plus an
optional trailer frame, consulting header trailers for zero-length bodies. -/
def unwrapGrpcWebMessage (data : List Nat) (headers : Option GrpcHeaders) :
    Except String (List Nat) :=
  if data.length < 5 then
    if data.length = 0 then
      match headers with
      | some h =>
        match h.grpcStatus with
        | some st =>
          if st ≠ "" then
            if st ≠ "0" then
              .error ("gRPC error " ++ st ++ ": " ++ orUnknownError h.grpcMessage)
            else
              .ok []
          else .error emptyBodyAuthMsg
        | none => .error emptyBodyAuthMsg
      | none => .error emptyBodyAuthMsg
    else
      .error (tooShortMsg data.length)
  else if byteAt data 0 ≠ 0 then
    .error "Compressed gRPC-Web payloads are not supported"
  else
    let messageLength := readBE32 data 1
    if data.length < 5 + messageLength then
      .error "Invalid gRPC-Web response: message length exceeds payload"
    else
      let message := (data.drop 5).take messageLength
      let trailerStart := 5 + messageLength
      if trailerStart < data.length then
        if byteAt data trailerStart = 128 then
          if data.length < trailerStart + 5 then
            .error "Invalid gRPC-Web response: truncated trailer frame"
          else
            let trailerLength := readBE32 data (trailerStart + 1)
            if trailerStart + 5 + trailerLength > data.length then
              .error "Invalid gRPC-Web response: incomplete trailers"
            else
              let trailerData := (data.drop (trailerStart + 5)).take trailerLength
              match searchStatusIn trailerData with
              | some st =>
                if st ≠ "0" then
                  .error ("gRPC error " ++ st ++ ": " ++
                    (match searchMessageIn trailerData with
                     | some m => m
                     | none => "Unknown error"))
                else .ok message
              | none => .ok message
        else .ok message
      else .ok message

/-- Little-endian base-128 varint written by `BinaryWriter.uint32` (the loop
`while (value > 0x7f) push((value & 0x7f) | 0x80); value >>>= 7` followed by a
final push; callers only pass values below 2^32, where `>>> 7` is division by
128). -/
def varintBytes (v : Nat) : List Nat :=
  if v ≤ 127 then [v] else (v % 128 + 128) :: varintBytes (v / 128)
termination_by v
decreasing_by
  simp_wf
  omega

/-- translation of `BinaryWriter.string`: varint byte length then UTF-8
bytes. -/
def writerString (s : String) : List Nat :=
  varintBytes (utf8Bytes s).length ++ utf8Bytes s

/-- The `GetPlayElementRequest` message; `includeDenied` is an optional
boolean in TypeScript, so `none` is `undefined`. -/
structure GetPlayElementRequest where
  id : String
  includeDenied : Option Bool

/-- Bytes emitted for field 1 (`id`, wire type 2, tag byte 10), omitted for an
empty string. -/
def idFieldBytes (id : String) : List Nat :=
  if id ≠ "" then varintBytes 10 ++ writerString id else []

/-- translation of `encodeGetPlayElementRequest`: field 1 (`id`) is written
when non-empty; field 2 (`includeDenied`, tag byte 16) is written exactly when
it is neither `false` nor `undefined`, with `BinaryWriter.bool` emitting byte
1 or 0. -/
def encodeGetPlayElementRequest (r : GetPlayElementRequest) : List Nat :=
  idFieldBytes r.id ++
    (if r.includeDenied ≠ some false ∧ r.includeDenied ≠ none then
      varintBytes 16 ++ [if r.includeDenied = some true then 1 else 0]
    else [])

/-- JavaScript value of the `attachmentType` field as the client observes it:
decoded documents carry the enum number, other shapes may carry the symbolic
string, and the field may be absent (the source checks both shapes). -/
inductive AttTypeVal where
  | num (n : Int)
  | str (s : String)
  | absent
deriving DecidableEq, Repr, Inhabited

/-- JavaScript value of the `filename` field: the wrapped form `{ value: s }`,
a plain string, or absent. -/
inductive FilenameVal where
  | wrapped (s : String)
  | plain (s : String)
  | absent
deriving DecidableEq, Repr, Inhabited

/-- models `(att.filename as any)?.value ?? att.filename` followed by the
`typeof filenameValue === 'string'` guard of the callers. -/
def filenameValue : FilenameVal → Option String
  | .wrapped s => some s
  | .plain s => some s
  | .absent => none

/-- A binary member of `attachmentData`, distinguishing a missing key
(`delete` produces this) from a null value and from actual bytes. -/
inductive BinField where
  | absent
  | nil
  | bytes (b : List Nat)
deriving DecidableEq, Repr, Inhabited

/-- The `attachmentData` object of an attachment. -/
structure AttachmentData where
  original : BinField := .absent
  compiled : BinField := .absent
deriving DecidableEq, Repr, Inhabited

/-- An attachment of a play-element design.  `metadata` holds the `.value` of
the wrapped metadata string; an absent `errors` array is modelled as `[]`
(the source only ever tests `att.errors && att.errors.length > 0` and copies
it). -/
structure Attachment where
  id : Option String := none
  version : Option String := none
  filename : FilenameVal := .absent
  attachmentType : AttTypeVal := .absent
  processingStatus : Option Int := none
  isProcessable : Option Bool := none
  attachmentData : Option AttachmentData := none
  metadata : Option String := none
  errors : List String := []
deriving DecidableEq, Repr, Inhabited

/-- One human team of a team composition. -/
structure Team where
  teamId : Int
  capacity : Int
deriving DecidableEq, Repr, Inhabited

/-- One bot team of a team composition. -/
structure InternalTeam where
  teamId : Int
  capacity : Int
  capacityType : Int
deriving DecidableEq, Repr, Inhabited

/-- A team composition (`teams`, `internalTeams`, `balancingMethod`). -/
structure TeamComposition where
  teams : List Team
  internalTeams : List InternalTeam
  balancingMethod : Int
deriving DecidableEq, Repr, Inhabited

/-- One entry of the map-rotation object that `setMapRotation` builds; the
mutator values and the two settings blobs are opaque to the claims and are
carried as strings. -/
structure RotMapEntry where
  mutators : List String
  levelName : String
  levelLocation : String
  rounds : Int
  allowedSpectators : Int
  teamComposition : TeamComposition
  blazeGameSettings : Option String
  gameServerJoinabilitySettings : Option String
deriving DecidableEq, Repr, Inhabited

/-- The `attributes` object of a map rotation. -/
structure RotationAttributes where
  rotationBehavior : Int
deriving DecidableEq, Repr, Inhabited

/-- The map-rotation object of a design. -/
structure MapRotation where
  maps : List RotMapEntry
  attributes : RotationAttributes
deriving DecidableEq, Repr, Inhabited

/-- The caller-supplied `MapEntry` input of `setMapRotation`; optional fields
are `undefined` when `none`.  `spatialData` is the JSON string (an object
argument is stringified by the source before use, so the model receives the
string form). -/
structure MapEntry where
  levelName : String
  levelLocation : Option String := none
  rounds : Option Int := none
  allowedSpectators : Option Int := none
  teamComposition : Option TeamComposition := none
  mutators : Option (List String) := none
  blazeGameSettings : Option String := none
  gameServerJoinabilitySettings : Option String := none
  spatialData : Option String := none
  spatialFilename : Option String := none
deriving DecidableEq, Repr, Inhabited

/-- The `compatibleRules` member of `modRules`. -/
structure ModRulesCompat where
  original : Option (List Nat) := none
deriving DecidableEq, Repr, Inhabited

/-- The opaque `modRules` blob of a design. -/
structure ModRules where
  compatibleRules : Option ModRulesCompat := none
deriving DecidableEq, Repr, Inhabited

/-- The design half of a play-element document.  Mutator and asset-category
values are opaque to the claims and are carried as strings;
`modLevelDataId` holds the `.value` of its wrapped string. -/
structure PlayElementDesign where
  designId : Option String := none
  attachments : Option (List Attachment) := none
  mapRotation : Option MapRotation := none
  mutators : Option (List String) := none
  assetCategories : Option (List String) := none
  designMetadata : Option String := none
  modLevelDataId : Option String := none
  modRules : Option ModRules := none
deriving DecidableEq, Repr, Inhabited

/-- The element half of a play-element document; `description` and
`thumbnailUrl` hold the `.value` of their wrapped strings. -/
structure PlayElement where
  id : Option String := none
  name : Option String := none
  description : Option String := none
  publishStateType : Option Int := none
  playElementSettings : Option String := none
  thumbnailUrl : Option String := none
deriving DecidableEq, Repr, Inhabited

/-- A decoded `PlayElementResponse` document. -/
structure PlayElementResponse where
  playElement : Option PlayElement := none
  playElementDesign : Option PlayElementDesign := none
deriving DecidableEq, Repr, Inhabited

/-- models `f.toLowerCase().endsWith(suffix)` at the character level. -/
def lowerEndsWith (f suffix : String) : Bool :=
  suffix.data.isSuffixOf (f.data.map Char.toLower)

/-- TypeScript-attachment test of `setTypeScriptCode`: SCRIPT type (string or
numeric shape, `AttachmentType.SCRIPT = 2`) with a filename whose lower-case
form ends in `.ts`. -/
def isTsAttachment (a : Attachment) : Bool :=
  (a.attachmentType = .str "ATTACHMENT_TYPE_SCRIPT" || a.attachmentType = .num 2) &&
    (match filenameValue a.filename with
     | some f => lowerEndsWith f ".ts"
     | none => false)

/-- Positions of the TypeScript attachments in list order (the source filters
the attachment objects; positions identify the same objects in the array). -/
def tsIndices (atts : List Attachment) : List Nat :=
  (List.range atts.length).filter (fun i => isTsAttachment (atts.getD i default))

/-- The `find` test of the multiple-TypeScript-attachment case: the filename
value is exactly `Script.ts` (the web UI default). -/
def scriptTsAt (atts : List Attachment) (i : Nat) : Bool :=
  filenameValue (atts.getD i default).filename = some "Script.ts"

/-- Selection rule of `setTypeScriptCode` (continued): the unique TypeScript
attachment if there is exactly one, otherwise the first one named
`Script.ts`, otherwise the first in list order. -/
def selectTsIndex (atts : List Attachment) : Option Nat :=
  match tsIndices atts with
  | [] => none
  | i0 :: rest =>
    if rest = [] then some i0
    else some (((i0 :: rest).find? (scriptTsAt atts)).getD i0)

/-- translation of `PlayElementModifier.setTypeScriptCode`: select the
TypeScript attachment, replace its original payload with the UTF-8 bytes of
`code`, delete the compiled payload, and set the processing status to
`ProcessingStatus.PENDING = 1`. -/
def setTypeScriptCode (resp : PlayElementResponse) (code : String) :
    Except String PlayElementResponse :=
  match resp.playElementDesign with
  | none => .error "PlayElementDesign is missing from response"
  | some design =>
    let atts := design.attachments.getD []
    match selectTsIndex atts with
    | none => .error "No TypeScript attachment (Type 2, .ts file) found on the play element"
    | some sel =>
      let a := atts.getD sel default
      let ad := a.attachmentData.getD ⟨.absent, .absent⟩
      let a' := { a with
        attachmentData := some { ad with
          original := .bytes (utf8Bytes code), compiled := .absent },
        processingStatus := some 1 }
      let design' := { design with attachments := some (atts.set sel a') }
      .ok { resp with playElementDesign := some design' }

/-- The metadata tag the spatial auto-attachment logic writes for map index
`i`. -/
def mapIdxTag (i : Nat) : String := "mapIdx=" ++ toString i

/-- The `findIndex` test of `setSpatialAttachment`: metadata value equals the
tag for `i` and the attachment type is the number `AttachmentType.SPATIAL =
1`. -/
def isSpatialForIdx (i : Nat) (a : Attachment) : Bool :=
  a.metadata = some (mapIdxTag i) && a.attachmentType = .num 1

/-- translation of `PlayElementModifier.setSpatialAttachment`; `freshId`
stands for the `crypto.randomUUID()` result used when a new attachment is
appended.  An existing SPATIAL attachment tagged for the index is overwritten
in place with its `id` and `version` preserved; otherwise a new attachment
with the fresh id and version "1" is appended. -/
def setSpatialAttachment (resp : PlayElementResponse) (mapIndex : Nat)
    (spatialData : String) (filename : String) (freshId : String) :
    Except String PlayElementResponse :=
  match resp.playElementDesign with
  | none => .error "PlayElementDesign is missing from response"
  | some design =>
    let atts := design.attachments.getD []
    let base : Attachment := {
      filename := .wrapped filename,
      isProcessable := some true,
      processingStatus := some 1,
      attachmentData := some { original := .bytes (utf8Bytes spatialData), compiled := .absent },
      attachmentType := .num 1,
      metadata := some (mapIdxTag mapIndex),
      errors := [] }
    match atts.findIdx? (isSpatialForIdx mapIndex) with
    | some j =>
      let old := atts.getD j default
      .ok { resp with playElementDesign := some { design with
        attachments := some (atts.set j { base with id := old.id, version := old.version }) } }
    | none =>
      .ok { resp with playElementDesign := some { design with
        attachments := some (atts ++ [{ base with id := some freshId, version := some "1" }]) } }

/-- The default team composition `setMapRotation` fills in: symmetric 16v16,
no bots, balancing method 0. -/
def defaultTeamComposition : TeamComposition :=
  { teams := [⟨1, 16⟩, ⟨2, 16⟩], internalTeams := [], balancingMethod := 0 }

/-- Per-map defaulting of `setMapRotation` (`??` fallbacks of the source). -/
def fillMapEntry (m : MapEntry) : RotMapEntry :=
  { mutators := m.mutators.getD [],
    levelName := m.levelName,
    levelLocation := m.levelLocation.getD "ModBuilderCustom0",
    rounds := m.rounds.getD 1,
    allowedSpectators := m.allowedSpectators.getD 4,
    teamComposition := m.teamComposition.getD defaultTeamComposition,
    blazeGameSettings := m.blazeGameSettings,
    gameServerJoinabilitySettings := m.gameServerJoinabilitySettings }

/-- Default spatial filename for map `levelName` at rotation index `i`. -/
def defaultSpatialFilename (levelName : String) (i : Nat) : String :=
  levelName ++ "_map" ++ toString i ++ ".spatial.json"

/-- The `maps.forEach((map, mapIndex) => ...)` loop of `setMapRotation`:
each map carrying (truthy) spatial data triggers `setSpatialAttachment` for
its rotation index; `fresh i` is the UUID generated for index `i` when a new
attachment is needed. -/
def applySpatials :
    List MapEntry → Nat → (Nat → String) → PlayElementResponse →
    Except String PlayElementResponse
  | [], _, _, resp => .ok resp
  | m :: rest, i, fresh, resp =>
    match m.spatialData with
    | some s =>
      if s = "" then applySpatials rest (i + 1) fresh resp
      else
        match setSpatialAttachment resp i s
            (m.spatialFilename.getD (defaultSpatialFilename m.levelName i)) (fresh i) with
        | .ok r => applySpatials rest (i + 1) fresh r
        | .error e => .error e
    | none => applySpatials rest (i + 1) fresh resp

/-- translation of `PlayElementModifier.setMapRotation`: replace the map
rotation wholesale with defaults filled in, then materialize spatial
attachments for maps carrying spatial data. -/
def setMapRotation (resp : PlayElementResponse) (maps : List MapEntry)
    (rotationBehavior : Int) (fresh : Nat → String) :
    Except String PlayElementResponse :=
  match resp.playElementDesign with
  | none => .error "PlayElementDesign is missing from response"
  | some design =>
    let rot : MapRotation :=
      { maps := maps.map fillMapEntry,
        attributes := { rotationBehavior := rotationBehavior } }
    let design' := { design with mapRotation := some rot }
    let resp1 : PlayElementResponse := { resp with playElementDesign := some design' }
    applySpatials maps 0 fresh resp1

/-- The `updatePlayElement` request payload assembled in step 5 of the
reconciliation algorithm. -/
structure UpdatePayload where
  id : String
  name : String
  description : Option String
  designMetadata : Option String
  mapRotation : Option MapRotation
  mutators : List String
  assetCategories : List String
  originalModRules : List Nat
  playElementSettings : Option String
  publishState : Int
  modLevelDataId : Option String
  thumbnailUrl : Option String
  attachments : List Attachment
deriving DecidableEq, Repr

/-- One network invocation of the client; `updatePlayElement` is modelled as
producing the ordered trace of its RPC calls instead of performing them. -/
inductive RpcCall where
  | fetchPlayElement (id : String) (includeDenied : Bool)
  | deleteAttachments (designId : String) (attachmentIds : List String)
  | updateElement (payload : UpdatePayload)
deriving DecidableEq, Repr

/-- Attachment ids of the new design (`if (att.id) newAttachmentIds.add`);
empty strings are falsy and skipped. -/
def collectNewIds (atts : List Attachment) : List String :=
  atts.filterMap (fun a =>
    match a.id with
    | some s => if s = "" then none else some s
    | none => none)

/-- Ids present (truthily) in the current attachments but absent from the new
id set, in current list order. -/
def attachmentsToDelete (curAtts : List Attachment) (newIds : List String) :
    List String :=
  curAtts.filterMap (fun a =>
    match a.id with
    | some s => if s ≠ "" && !(newIds.contains s) then some s else none
    | none => none)

/-- The truthiness test `current.playElementDesign?.designId`, yielding the
design id when it is a non-empty string. -/
def designIdTruthy (r : PlayElementResponse) : Option String :=
  match r.playElementDesign with
  | some d =>
    match d.designId with
    | some s => if s = "" then none else some s
    | none => none
  | none => none

/-- Step-4 error clearing: every attachment with a non-empty error list is
replaced by a spread copy (`{...att, errors: []}`); the subsequent
`.filter(Boolean)` drops nothing since the list holds no null entries. -/
def cleanAttachments (atts : List Attachment) : List Attachment :=
  atts.map (fun a => if a.errors ≠ [] then { a with errors := [] } else a)

/-- models the final per-attachment normalization of step 5: `{...attachment}`
shallow copy, `[...errors]` array copy, and `ensureUint8Arrays` on the
payloads.  All three are the identity on the model's values (binary payloads
are already canonical byte lists). -/
def ensureAttachment (a : Attachment) : Attachment := a

/-- Step-5 payload assembly (`cloneStringValue` copies a wrapped string value
and is the identity on the model's `Option String` wrappers; the schema-level
`verify` call is an external collaborator assumed to accept). -/
def buildUpdatePayload (optionsId : String) (pe : PlayElement)
    (pd : PlayElementDesign) : UpdatePayload :=
  let originalModRules :=
    match pd.modRules with
    | some mr =>
      match mr.compatibleRules with
      | some cr => cr.original.getD []
      | none => []
    | none => []
  { id := pe.id.getD optionsId,
    name := pe.name.getD "",
    description := pe.description,
    designMetadata := pd.designMetadata,
    mapRotation := pd.mapRotation,
    mutators := pd.mutators.getD [],
    assetCategories := pd.assetCategories.getD [],
    originalModRules := originalModRules,
    playElementSettings := pe.playElementSettings,
    publishState := pe.publishStateType.getD 0,
    modLevelDataId := pd.modLevelDataId,
    thumbnailUrl := pe.thumbnailUrl,
    attachments := (pd.attachments.getD []).map ensureAttachment }

/-- The options object of `updatePlayElement`. -/
structure UpdateOptions where
  id : String
  playElement : Option PlayElement
  playElementDesign : Option PlayElementDesign
  current : Option PlayElementResponse
deriving DecidableEq, Repr

/-- translation of `SantiagoWebPlayClient.updatePlayElement` as a trace of RPC
calls in execution order.  `fetched` stands for the response of the
`getPlayElementDecoded` round trip that runs only when no current state is
provided.  Steps: validate, obtain current state, diff attachment ids, issue
the deletion call when the list is non-empty and the current design id is
truthy, clear attachment errors on copies, reset publish state
`ERROR (4) → DRAFT (1)` when any attachment was cleared, then submit the
assembled payload. -/
def updatePlayElement (options : UpdateOptions) (fetched : PlayElementResponse) :
    Except String (List RpcCall) :=
  match options.playElement, options.playElementDesign with
  | some pe0, some pd0 =>
    let fetchCalls : List RpcCall :=
      match options.current with
      | some _ => []
      | none => [.fetchPlayElement options.id true]
    let current := options.current.getD fetched
    let newIds := collectNewIds (pd0.attachments.getD [])
    let toDelete :=
      match current.playElementDesign with
      | some d => attachmentsToDelete (d.attachments.getD []) newIds
      | none => []
    let deleteCalls : List RpcCall :=
      match designIdTruthy current with
      | some did => if toDelete ≠ [] then [.deleteAttachments did toDelete] else []
      | none => []
    let hadErrors :=
      match pd0.attachments with
      | some atts => atts.any (fun a => a.errors ≠ [])
      | none => false
    let pd1 :=
      match pd0.attachments with
      | some atts => { pd0 with attachments := some (cleanAttachments atts) }
      | none => pd0
    let pe1 :=
      if hadErrors = true ∧ pe0.publishStateType = some 4 then
        { pe0 with publishStateType := some 1 }
      else pe0
    .ok (fetchCalls ++ deleteCalls ++
      [.updateElement (buildUpdatePayload options.id pe1 pd1)])
  | _, _ => .error "Both playElement and playElementDesign are required for update."

/-!
The following sub-development models the aliasing-sensitive part of the
claims: `deepClone` as used by the `PlayElementModifier` constructor, plus
`setName` and `build`.  JavaScript objects have reference identity, which a
plain value embedding cannot express, so every mutable node of the document
(objects, the attachments array, binary buffers, wrapped strings) carries an
explicit `nodeId`, and cloning threads a fresh-id allocator exactly where
`deepClone` allocates a new object (`new Uint8Array(obj)` / `Buffer.from`,
`{...}` object rebuild, array map).  Two structures share mutable state in the
JavaScript heap precisely when they share a `nodeId` here.
-/
namespace HeapModel

/-- A binary payload (`Buffer` when `isNodeBuffer`, else `Uint8Array`) with
its heap identity. -/
structure HBuf where
  nodeId : Nat
  isNodeBuffer : Bool
  bytes : List Nat
deriving DecidableEq, Repr

/-- A wrapped string object `{ value: s }` with its heap identity. -/
structure HStrVal where
  nodeId : Nat
  value : String
deriving DecidableEq, Repr

/-- The `attachmentData` object with its heap identity. -/
structure HAttData where
  nodeId : Nat
  original : Option HBuf
  compiled : Option HBuf
deriving DecidableEq, Repr

/-- An attachment object with its heap identity. -/
structure HAttachment where
  nodeId : Nat
  id : Option String
  version : Option String
  filename : Option HStrVal
  attachmentType : Int
  processingStatus : Option Int
  metadata : Option HStrVal
  attachmentData : Option HAttData
  errors : List String
deriving DecidableEq, Repr

/-- The `playElement` object with its heap identity. -/
structure HElem where
  nodeId : Nat
  id : Option String
  name : Option String
  description : Option HStrVal
  publishStateType : Option Int
deriving DecidableEq, Repr

/-- The `playElementDesign` object, carrying heap identities for itself and
for its attachments array. -/
structure HDesign where
  nodeId : Nat
  designId : Option String
  attsArrId : Nat
  attachments : List HAttachment
deriving DecidableEq, Repr

/-- A fetched `PlayElementResponse` document with its heap identity. -/
structure HDoc where
  nodeId : Nat
  playElement : Option HElem
  playElementDesign : Option HDesign
deriving DecidableEq, Repr

/-- Clones an optional member, threading the allocator (absent members are
returned as-is by `deepClone`'s null/undefined branch). -/
def cloneOpt (f : α → Nat → α × Nat) : Option α → Nat → Option α × Nat
  | none, n => (none, n)
  | some x, n => (some (f x n).1, (f x n).2)

/-- The `Buffer.from(obj)` / `new Uint8Array(obj)` branch of `deepClone`: a
fresh buffer with identical bytes. -/
def cloneBuf (b : HBuf) (n : Nat) : HBuf × Nat :=
  (⟨n, b.isNodeBuffer, b.bytes⟩, n + 1)

/-- The plain-object branch of `deepClone` on a wrapped string. -/
def cloneStrVal (s : HStrVal) (n : Nat) : HStrVal × Nat :=
  (⟨n, s.value⟩, n + 1)

/-- The plain-object branch of `deepClone` on `attachmentData`. -/
def cloneAttData (d : HAttData) (n : Nat) : HAttData × Nat :=
  let o := cloneOpt cloneBuf d.original (n + 1)
  let c := cloneOpt cloneBuf d.compiled o.2
  (⟨n, o.1, c.1⟩, c.2)

/-- The plain-object branch of `deepClone` on an attachment; primitive
members (strings, numbers) are returned as-is. -/
def cloneAttachment (a : HAttachment) (n : Nat) : HAttachment × Nat :=
  let f := cloneOpt cloneStrVal a.filename (n + 1)
  let m := cloneOpt cloneStrVal a.metadata f.2
  let d := cloneOpt cloneAttData a.attachmentData m.2
  (⟨n, a.id, a.version, f.1, a.attachmentType, a.processingStatus, m.1, d.1, a.errors⟩, d.2)

/-- The array branch of `deepClone` on the attachments array (`map` over
elements into a fresh array). -/
def cloneAttachments : List HAttachment → Nat → List HAttachment × Nat
  | [], n => ([], n)
  | a :: t, n =>
    let r := cloneAttachment a n
    let rt := cloneAttachments t r.2
    (r.1 :: rt.1, rt.2)

/-- The plain-object branch of `deepClone` on the element. -/
def cloneElem (e : HElem) (n : Nat) : HElem × Nat :=
  let d := cloneOpt cloneStrVal e.description (n + 1)
  (⟨n, e.id, e.name, d.1, e.publishStateType⟩, d.2)

/-- The plain-object branch of `deepClone` on the design (fresh design node
and a fresh attachments array node). -/
def cloneDesign (d : HDesign) (n : Nat) : HDesign × Nat :=
  let r := cloneAttachments d.attachments (n + 2)
  (⟨n, d.designId, n + 1, r.1⟩, r.2)

/-- translation of `deepClone` on a fetched document, as run by the
`PlayElementModifier` constructor. -/
def cloneDoc (d : HDoc) (n : Nat) : HDoc × Nat :=
  let e := cloneOpt cloneElem d.playElement (n + 1)
  let des := cloneOpt cloneDesign d.playElementDesign e.2
  (⟨n, e.1, des.1⟩, des.2)

/-- Heap identities of an optional member. -/
def idsOfOpt (g : α → List Nat) : Option α → List Nat
  | none => []
  | some x => g x

def idsOfBuf (b : HBuf) : List Nat := [b.nodeId]

def idsOfStrVal (s : HStrVal) : List Nat := [s.nodeId]

def idsOfAttData (d : HAttData) : List Nat :=
  d.nodeId :: (idsOfOpt idsOfBuf d.original ++ idsOfOpt idsOfBuf d.compiled)

def idsOfAttachment (a : HAttachment) : List Nat :=
  a.nodeId :: (idsOfOpt idsOfStrVal a.filename ++ idsOfOpt idsOfStrVal a.metadata ++
    idsOfOpt idsOfAttData a.attachmentData)

def idsOfAttachments : List HAttachment → List Nat
  | [] => []
  | a :: t => idsOfAttachment a ++ idsOfAttachments t

def idsOfElem (e : HElem) : List Nat :=
  e.nodeId :: idsOfOpt idsOfStrVal e.description

def idsOfDesign (d : HDesign) : List Nat :=
  d.nodeId :: d.attsArrId :: idsOfAttachments d.attachments

def idsOfDoc (d : HDoc) : List Nat :=
  d.nodeId :: (idsOfOpt idsOfElem d.playElement ++ idsOfOpt idsOfDesign d.playElementDesign)

/-- Erases all heap identities, leaving pure content; two values with equal
`strip` images are byte-for-byte / field-for-field identical. -/
def stripBuf (b : HBuf) : HBuf := { b with nodeId := 0 }

def stripStrVal (s : HStrVal) : HStrVal := { s with nodeId := 0 }

def stripAttData (d : HAttData) : HAttData :=
  ⟨0, d.original.map stripBuf, d.compiled.map stripBuf⟩

def stripAttachment (a : HAttachment) : HAttachment :=
  ⟨0, a.id, a.version, a.filename.map stripStrVal, a.attachmentType,
    a.processingStatus, a.metadata.map stripStrVal,
    a.attachmentData.map stripAttData, a.errors⟩

def stripElem (e : HElem) : HElem :=
  ⟨0, e.id, e.name, e.description.map stripStrVal, e.publishStateType⟩

def stripDesign (d : HDesign) : HDesign :=
  ⟨0, d.designId, 0, d.attachments.map stripAttachment⟩

def stripDoc (d : HDoc) : HDoc :=
  ⟨0, d.playElement.map stripElem, d.playElementDesign.map stripDesign⟩

/-- translation of `PlayElementModifier.setName`: creates the element object
on demand (allocating) and sets the `name` field in place. -/
def hSetName (d : HDoc) (name : String) (n : Nat) : HDoc × Nat :=
  match d.playElement with
  | some e => ({ d with playElement := some { e with name := some name } }, n)
  | none => ({ d with playElement := some ⟨n, none, some name, none, none⟩ }, n + 1)

/-- translation of `PlayElementModifier.build`. -/
def hBuild (d : HDoc) : Except String (HElem × HDesign) :=
  match d.playElement, d.playElementDesign with
  | some e, some des => .ok (e, des)
  | _, _ => .error "Response is missing required playElement or playElementDesign"



/-- The per-attachment clearing of `updatePlayElement` step 4 in the heap
model: an attachment with a non-empty error list is replaced by the shallow
spread copy `{...att, errors: []}` — a fresh object node whose other members
keep their references — while an attachment without errors is passed through
by reference. -/
def hCleanAttachment (a : HAttachment) (n : Nat) : HAttachment × Nat :=
  if a.errors ≠ [] then ({ a with nodeId := n, errors := [] }, n + 1)
  else (a, n)

/-- The `.map` over the attachments in step 4, threading the allocator. -/
def hCleanAttachments : List HAttachment → Nat → List HAttachment × Nat
  | [], n => ([], n)
  | a :: t, n =>
    let r := hCleanAttachment a n
    let rt := hCleanAttachments t r.2
    (r.1 :: rt.1, rt.2)

/-- Steps 4 and 5 of the `updatePlayElement` error recovery in the heap
model: clear attachment errors on spread copies, rebuild the design as
`{...playElementDesign, attachments: cleaned}` (a fresh design object and the
fresh array produced by `.map`), and when any attachment was cleared and the
element's publish state is `ERROR (4)`, rebuild the element as
`{...playElement, publishStateType: DRAFT (1)}` (again a fresh object).  The
caller-passed element and design are only read, never written: an in-place
implementation would keep the caller node ids on the modified values and is
therefore distinguished by the theorems below. -/
def hCleanStep (pe : HElem) (pd : HDesign) (n : Nat) : HElem × HDesign × Nat :=
  let hadErrors := pd.attachments.any (fun a => a.errors ≠ [])
  let r := hCleanAttachments pd.attachments n
  let pd' : HDesign := ⟨r.2, pd.designId, r.2 + 1, r.1⟩
  if hadErrors = true ∧ pe.publishStateType = some 4 then
    (⟨r.2 + 2, pe.id, pe.name, pe.description, some 1⟩, pd', r.2 + 3)
  else
    (pe, pd', r.2 + 2)

end HeapModel


/-- models `s.toLowerCase()` at the character level. -/
def jsToLower (s : String) : String := String.mk (s.data.map Char.toLower)

/-- A hexadecimal digit, the regexp class `[0-9a-f]` with the `i` flag. -/
def isHexDigit (c : Char) : Bool :=
  (decide ('0' ≤ c) && decide (c ≤ '9')) || (decide ('a' ≤ c) && decide (c ≤ 'f')) ||
    (decide ('A' ≤ c) && decide (c ≤ 'F'))

/-- The UUID-shape test of `nameToUUID`: the case-insensitive regexp
`^[0-9a-f]{8}-[0-9a-f]{4}-[0-9a-f]{4}-[0-9a-f]{4}-[0-9a-f]{12}$` (8-4-4-4-12
hex digits with dashes at positions 8, 13, 18, 23). -/
def isUuidFormat (s : String) : Bool :=
  decide (s.data.length = 36) &&
    (List.range 36).all (fun i =>
      if i = 8 || i = 13 || i = 18 || i = 23 then decide (s.data.getD i ' ' = '-')
      else isHexDigit (s.data.getD i ' '))

/-- The hardcoded UUID-to-name table of the config translator. -/
def ASSET_CATEGORY_UUID_MAP : List (String × String) := [
  ("47ef914c-ad5b-4248-ae86-d73d1369c009", "class_assault"),
  ("49e59f6a-8eb7-4f27-a9e9-8c375b4af5eb", "class_engineer"),
  ("835aa100-f265-4065-bc6c-8376bfbda606", "class_recon"),
  ("74398fcc-a02e-4aee-b830-ac9cd400c837", "class_support"),
  ("0f72e98a-53b7-4380-9435-263b621d11d2", "vehicle_kht"),
  ("d9a88985-e856-4825-8c1f-5a2aadfc8840", "vehicle_su57"),
  ("95ec6560-1be8-40cc-af70-b9db59375dc1", "vehicle_f61v")]

/-- The reverse name-to-UUID table, built at module load by
`initializeNameToUuidMap` with lower-cased name keys. -/
def ASSET_CATEGORY_NAME_TO_UUID : List (String × String) :=
  ASSET_CATEGORY_UUID_MAP.map (fun p => (jsToLower p.2, p.1))

/-- translation of `nameToUUID`: a UUID-shaped input passes through; a name
found in the hardcoded table resolves to its UUID; anything else is returned
as-is. -/
def nameToUUID (tagId : String) : String :=
  if isUuidFormat tagId then tagId
  else
    match ASSET_CATEGORY_NAME_TO_UUID.lookup (jsToLower tagId) with
    | some uuid => if uuid = "" then tagId else uuid
    | none => tagId

/-- A per-team entry of an asset restriction config. -/
structure TeamRestriction where
  teamId : Int
  allowAll : Option Bool := none
  allowedTags : Option (List String) := none
deriving DecidableEq, Repr

/-- An asset restriction entry of the declarative config. -/
structure AssetRestriction where
  tagId : String
  allowAll : Option Bool := none
  allowedTags : Option (List String) := none
  perTeamRestrictions : Option (List TeamRestriction) := none
deriving DecidableEq, Repr

/-- The `overrides` member of a translated category's boolean. -/
structure CategoryOverrides where
  assetCategoryTags : List String
  value : Bool
deriving DecidableEq, Repr

/-- One entry of the `teamOverrides` member of a translated category. -/
structure CategoryTeamOverride where
  teamId : Int
  assetCategoryTags : List String
  value : Bool
deriving DecidableEq, Repr

/-- The `boolean` member of a translated asset category. -/
structure CategoryBoolean where
  defaultValue : Bool
  overrides : Option CategoryOverrides := none
  teamOverrides : Option (List CategoryTeamOverride) := none
deriving DecidableEq, Repr

/-- A translated asset category as built by
`convertAssetRestrictionToCategory`. -/
structure AssetCategoryOut where
  tagId : String
  boolean : CategoryBoolean
deriving DecidableEq, Repr

/-- The category-construction part of `convertAssetRestrictionToCategory`
(the code after name resolution): allowed tags become boolean overrides,
`allowAll` falls back to true, and non-empty per-team restrictions become
team overrides. -/
def buildCategory (r : AssetRestriction) (uuid : String) : AssetCategoryOut :=
  let boolBase : CategoryBoolean :=
    match r.allowedTags with
    | some tags =>
      if tags.length > 0 then
        { defaultValue := decide (r.allowAll ≠ some false),
          overrides := some { assetCategoryTags := tags, value := true } }
      else if r.allowAll = some false then { defaultValue := false }
      else { defaultValue := true }
    | none =>
      if r.allowAll = some false then { defaultValue := false }
      else { defaultValue := true }
  let boolFinal : CategoryBoolean :=
    match r.perTeamRestrictions with
    | some trs =>
      if trs.length > 0 then
        { boolBase with teamOverrides := some (trs.map (fun tr =>
            { teamId := tr.teamId, assetCategoryTags := tr.allowedTags.getD [],
              value := decide (tr.allowAll ≠ some false) })) }
      else boolBase
    | none => boolBase
  { tagId := uuid, boolean := boolFinal }

/-- The `console.warn` text emitted when a tag id is absent from the
blueprint table (quotes around the name omitted). -/
def blueprintWarning (tagId : String) : String :=
  "Asset category " ++ tagId ++ " not found in Blueprint"

/-- translation of `convertAssetRestrictionToCategory`; warnings emitted via
`console.warn` are returned alongside the result.  With a blueprint table
provided, a tag id absent from it is skipped with a warning; without one,
`nameToUUID` resolves the tag id and the restriction is always translated. -/
def convertAssetRestrictionToCategory (r : AssetRestriction)
    (availableAssetCategories : Option (List (String × String))) :
    Option AssetCategoryOut × List String :=
  if r.tagId = "" then (none, [])
  else
    match availableAssetCategories with
    | some blueprint =>
      match blueprint.lookup r.tagId with
      | some bu =>
        if bu = "" then (none, [blueprintWarning r.tagId])
        else (some (buildCategory r bu), [])
      | none => (none, [blueprintWarning r.tagId])
    | none => (some (buildCategory r (nameToUUID r.tagId)), [])

/-- The restrictions application of `loadExperienceFromConfig`:
`config.restrictions.map(convert).filter(c => c !== null)`, with the emitted
warnings collected in order. -/
def applyRestrictions (rs : List AssetRestriction)
    (bp : Option (List (String × String))) :
    List AssetCategoryOut × List String :=
  let converted := rs.map (fun r => convertAssetRestrictionToCategory r bp)
  (converted.filterMap (fun p => p.1),
   converted.foldr (fun p acc => p.2 ++ acc) [])

-- ===================================================================
-- Theorems
-- ===================================================================

/-- The varint of a value of at most 127 is a single byte. -/
theorem varintBytes_small (v : Nat) (h : v ≤ 127) : varintBytes v = [v] := by
  rw [varintBytes]
  simp [h]

/-- `be32` always produces exactly four bytes. -/
theorem be32_length (n : Nat) : (be32 n).length = 4 := by
  simp [be32]

/-- Reading back the big-endian length field of an encoded frame recovers the
payload length mod 2^32. -/
theorem readBE32_frame (n : Nat) (P : List Nat) :
    readBE32 (0 :: (be32 n ++ P)) 1 = n % 4294967296 := by
  simp only [readBE32, byteAt, be32]
  simp only [List.cons_append, List.getD_cons_succ, List.getD_cons_zero]
  omega

/-- C3: for every payload byte sequence whose length fits in an unsigned
32-bit integer, decoding the frame produced by `encodeGrpcWebFrame` succeeds
and returns the payload byte-for-byte. -/
theorem frame_roundtrip (P : List Nat) (h : P.length < 4294967296) :
    unwrapGrpcWebMessage (encodeGrpcWebFrame P) none = .ok P := by
  have hlen : (encodeGrpcWebFrame P).length = 5 + P.length := by
    simp [encodeGrpcWebFrame, be32]
    omega
  have hread : readBE32 (encodeGrpcWebFrame P) 1 = P.length := by
    rw [encodeGrpcWebFrame, readBE32_frame, Nat.mod_eq_of_lt h]
  have hdrop : (encodeGrpcWebFrame P).drop 5 = P := by
    simp [encodeGrpcWebFrame, be32]
  have hbyte0 : byteAt (encodeGrpcWebFrame P) 0 = 0 := by
    simp [encodeGrpcWebFrame, byteAt]
  rw [unwrapGrpcWebMessage.eq_def]
  rw [hlen] at *
  simp only [hread, hdrop, hbyte0]
  simp [List.take_length]

/-- Witness for C3 at a concrete payload. -/
theorem frame_roundtrip_witness :
    unwrapGrpcWebMessage (encodeGrpcWebFrame [1, 2, 3]) none = .ok [1, 2, 3] :=
  frame_roundtrip [1, 2, 3] (by decide)

/-- C4: a zero-length body with out-of-band status "0" decodes to the empty
message; a zero-length body with status "13" and message "X" raises an error
whose text contains both "13" and "X" (shown by explicit decomposition of the
error string); and every body of length 1 through 4 raises the framing
error. -/
theorem short_body_decoding :
    unwrapGrpcWebMessage [] (some ⟨some "0", none⟩) = .ok [] ∧
    unwrapGrpcWebMessage [] (some ⟨some "13", some "X"⟩) =
      .error ("gRPC error " ++ "13" ++ ": " ++ "X") ∧
    (∀ (data : List Nat) (headers : Option GrpcHeaders),
      1 ≤ data.length → data.length ≤ 4 →
      unwrapGrpcWebMessage data headers = .error (tooShortMsg data.length)) := by
  refine ⟨by rfl, by rfl, ?_⟩
  intro data headers h1 h4
  rw [unwrapGrpcWebMessage.eq_def]
  have hlt : data.length < 5 := by omega
  have hne : ¬ data.length = 0 := by omega
  simp [hlt, hne]

/-- Witness for C4: a concrete 1-byte body is rejected with the framing
error. -/
theorem short_body_decoding_witness :
    unwrapGrpcWebMessage [7] none = .error (tooShortMsg 1) :=
  short_body_decoding.2.2 [7] none (by decide) (by decide)

/-- C8: for every request id, the encoding with `includeDenied = false`
consists solely of the id field's bytes (so no tag byte for field 2 appears),
while the encoding with `includeDenied = true` is the same bytes followed by
tag byte 16 and value byte 1; the false encoding is strictly shorter. -/
theorem bool_field_omission (id : String) :
    encodeGetPlayElementRequest ⟨id, some false⟩ = idFieldBytes id ∧
    encodeGetPlayElementRequest ⟨id, some true⟩ = idFieldBytes id ++ [16, 1] ∧
    (encodeGetPlayElementRequest ⟨id, some false⟩).length <
      (encodeGetPlayElementRequest ⟨id, some true⟩).length := by
  have h16 : varintBytes 16 = [16] := varintBytes_small 16 (by omega)
  refine ⟨by simp [encodeGetPlayElementRequest], ?_, ?_⟩
  · simp [encodeGetPlayElementRequest, h16]
  · simp [encodeGetPlayElementRequest, h16]

namespace HeapModel

theorem cloneOpt_le (f : α → Nat → α × Nat) (hf : ∀ x n, n ≤ (f x n).2) :
    ∀ (o : Option α) (n : Nat), n ≤ (cloneOpt f o n).2 := by
  intro o n
  cases o with
  | none => exact Nat.le_refl n
  | some x => exact hf x n

theorem cloneAttData_le (d : HAttData) (n : Nat) : n ≤ (cloneAttData d n).2 := by
  have h1 := cloneOpt_le cloneBuf (fun x n => by simp [cloneBuf]) d.original (n + 1)
  have h2 := cloneOpt_le cloneBuf (fun x n => by simp [cloneBuf]) d.compiled
    ((cloneOpt cloneBuf d.original (n + 1)).2)
  simp [cloneAttData]
  omega

theorem cloneAttachment_le (a : HAttachment) (n : Nat) : n ≤ (cloneAttachment a n).2 := by
  have h1 := cloneOpt_le cloneStrVal (fun x n => by simp [cloneStrVal]) a.filename (n + 1)
  have h2 := cloneOpt_le cloneStrVal (fun x n => by simp [cloneStrVal]) a.metadata
    ((cloneOpt cloneStrVal a.filename (n + 1)).2)
  have h3 := cloneOpt_le cloneAttData cloneAttData_le a.attachmentData
    ((cloneOpt cloneStrVal a.metadata ((cloneOpt cloneStrVal a.filename (n + 1)).2)).2)
  simp [cloneAttachment]
  omega

theorem cloneAttachments_le (l : List HAttachment) :
    ∀ n, n ≤ (cloneAttachments l n).2 := by
  induction l with
  | nil => intro n; simp [cloneAttachments]
  | cons a t ih =>
    intro n
    have h1 := cloneAttachment_le a n
    have h2 := ih (cloneAttachment a n).2
    simp [cloneAttachments]
    omega

theorem cloneElem_le (e : HElem) (n : Nat) : n ≤ (cloneElem e n).2 := by
  have h1 := cloneOpt_le cloneStrVal (fun x n => by simp [cloneStrVal]) e.description (n + 1)
  simp [cloneElem]
  omega

theorem cloneDesign_le (d : HDesign) (n : Nat) : n ≤ (cloneDesign d n).2 := by
  have h1 := cloneAttachments_le d.attachments (n + 2)
  simp [cloneDesign]
  omega

theorem cloneDoc_le (d : HDoc) (n : Nat) : n ≤ (cloneDoc d n).2 := by
  have h1 := cloneOpt_le cloneElem cloneElem_le d.playElement (n + 1)
  have h2 := cloneOpt_le cloneDesign cloneDesign_le d.playElementDesign
    ((cloneOpt cloneElem d.playElement (n + 1)).2)
  simp [cloneDoc]
  omega

theorem cloneOpt_bound (f : α → Nat → α × Nat) (g : α → List Nat)
    (hf : ∀ x n, ∀ i ∈ g (f x n).1, n ≤ i ∧ i < (f x n).2) :
    ∀ (o : Option α) (n : Nat), ∀ i ∈ idsOfOpt g (cloneOpt f o n).1,
      n ≤ i ∧ i < (cloneOpt f o n).2 := by
  intro o n i hi
  cases o with
  | none => simp [cloneOpt, idsOfOpt] at hi
  | some x =>
    simp only [cloneOpt, idsOfOpt] at hi
    exact hf x n i hi

theorem cloneBuf_bound (b : HBuf) (n : Nat) :
    ∀ i ∈ idsOfBuf (cloneBuf b n).1, n ≤ i ∧ i < (cloneBuf b n).2 := by
  intro i hi
  simp [cloneBuf, idsOfBuf] at hi ⊢
  omega

theorem cloneStrVal_bound (s : HStrVal) (n : Nat) :
    ∀ i ∈ idsOfStrVal (cloneStrVal s n).1, n ≤ i ∧ i < (cloneStrVal s n).2 := by
  intro i hi
  simp [cloneStrVal, idsOfStrVal] at hi ⊢
  omega

theorem cloneAttData_bound (d : HAttData) (n : Nat) :
    ∀ i ∈ idsOfAttData (cloneAttData d n).1, n ≤ i ∧ i < (cloneAttData d n).2 := by
  intro i hi
  have ho := cloneOpt_bound cloneBuf idsOfBuf cloneBuf_bound d.original (n + 1)
  have hc := cloneOpt_bound cloneBuf idsOfBuf cloneBuf_bound d.compiled
    ((cloneOpt cloneBuf d.original (n + 1)).2)
  have hle1 := cloneOpt_le cloneBuf (fun x n => by simp [cloneBuf]) d.original (n + 1)
  have hle2 := cloneOpt_le cloneBuf (fun x n => by simp [cloneBuf]) d.compiled
    ((cloneOpt cloneBuf d.original (n + 1)).2)
  simp only [cloneAttData, idsOfAttData, List.mem_cons, List.mem_append] at hi ⊢
  rcases hi with rfl | hi | hi
  · omega
  · have := ho i hi
    omega
  · have := hc i hi
    omega

theorem cloneAttachment_bound (a : HAttachment) (n : Nat) :
    ∀ i ∈ idsOfAttachment (cloneAttachment a n).1, n ≤ i ∧ i < (cloneAttachment a n).2 := by
  intro i hi
  have hf := cloneOpt_bound cloneStrVal idsOfStrVal cloneStrVal_bound a.filename (n + 1)
  have hm := cloneOpt_bound cloneStrVal idsOfStrVal cloneStrVal_bound a.metadata
    ((cloneOpt cloneStrVal a.filename (n + 1)).2)
  have hd := cloneOpt_bound cloneAttData idsOfAttData cloneAttData_bound a.attachmentData
    ((cloneOpt cloneStrVal a.metadata ((cloneOpt cloneStrVal a.filename (n + 1)).2)).2)
  have hle1 := cloneOpt_le cloneStrVal (fun x n => by simp [cloneStrVal]) a.filename (n + 1)
  have hle2 := cloneOpt_le cloneStrVal (fun x n => by simp [cloneStrVal]) a.metadata
    ((cloneOpt cloneStrVal a.filename (n + 1)).2)
  have hle3 := cloneOpt_le cloneAttData cloneAttData_le a.attachmentData
    ((cloneOpt cloneStrVal a.metadata ((cloneOpt cloneStrVal a.filename (n + 1)).2)).2)
  simp only [cloneAttachment, idsOfAttachment, List.mem_cons, List.mem_append] at hi ⊢
  rcases hi with rfl | (hi | hi) | hi
  · omega
  · have := hf i hi
    omega
  · have := hm i hi
    omega
  · have := hd i hi
    omega

theorem cloneAttachments_bound (l : List HAttachment) :
    ∀ n, ∀ i ∈ idsOfAttachments (cloneAttachments l n).1,
      n ≤ i ∧ i < (cloneAttachments l n).2 := by
  induction l with
  | nil => intro n i hi; simp [cloneAttachments, idsOfAttachments] at hi
  | cons a t ih =>
    intro n i hi
    have hle1 := cloneAttachment_le a n
    have hle2 := cloneAttachments_le t (cloneAttachment a n).2
    simp only [cloneAttachments, idsOfAttachments, List.mem_append] at hi ⊢
    rcases hi with hi | hi
    · have := cloneAttachment_bound a n i hi
      omega
    · have := ih (cloneAttachment a n).2 i hi
      omega

theorem cloneElem_bound (e : HElem) (n : Nat) :
    ∀ i ∈ idsOfElem (cloneElem e n).1, n ≤ i ∧ i < (cloneElem e n).2 := by
  intro i hi
  have hd := cloneOpt_bound cloneStrVal idsOfStrVal cloneStrVal_bound e.description (n + 1)
  have hle1 := cloneOpt_le cloneStrVal (fun x n => by simp [cloneStrVal]) e.description (n + 1)
  simp only [cloneElem, idsOfElem, List.mem_cons] at hi ⊢
  rcases hi with rfl | hi
  · omega
  · have := hd i hi
    omega

theorem cloneDesign_bound (d : HDesign) (n : Nat) :
    ∀ i ∈ idsOfDesign (cloneDesign d n).1, n ≤ i ∧ i < (cloneDesign d n).2 := by
  intro i hi
  have hle1 := cloneAttachments_le d.attachments (n + 2)
  simp only [cloneDesign, idsOfDesign, List.mem_cons] at hi ⊢
  rcases hi with rfl | rfl | hi
  · omega
  · omega
  · have := cloneAttachments_bound d.attachments (n + 2) i hi
    omega

theorem cloneDoc_bound (d : HDoc) (n : Nat) :
    ∀ i ∈ idsOfDoc (cloneDoc d n).1, n ≤ i ∧ i < (cloneDoc d n).2 := by
  intro i hi
  have he := cloneOpt_bound cloneElem idsOfElem cloneElem_bound d.playElement (n + 1)
  have hdes := cloneOpt_bound cloneDesign idsOfDesign cloneDesign_bound d.playElementDesign
    ((cloneOpt cloneElem d.playElement (n + 1)).2)
  have hle1 := cloneOpt_le cloneElem cloneElem_le d.playElement (n + 1)
  have hle2 := cloneOpt_le cloneDesign cloneDesign_le d.playElementDesign
    ((cloneOpt cloneElem d.playElement (n + 1)).2)
  simp only [cloneDoc, idsOfDoc, List.mem_cons, List.mem_append] at hi ⊢
  rcases hi with rfl | hi | hi
  · omega
  · have := he i hi
    omega
  · have := hdes i hi
    omega

theorem stripOpt_clone (f : α → Nat → α × Nat) (g : α → α)
    (hf : ∀ x n, g (f x n).1 = g x) :
    ∀ (o : Option α) (n : Nat), ((cloneOpt f o n).1).map g = o.map g := by
  intro o n
  cases o with
  | none => rfl
  | some x => simp [cloneOpt, hf]

theorem stripBuf_clone (b : HBuf) (n : Nat) : stripBuf (cloneBuf b n).1 = stripBuf b := by
  simp [cloneBuf, stripBuf]

theorem stripStrVal_clone (s : HStrVal) (n : Nat) :
    stripStrVal (cloneStrVal s n).1 = stripStrVal s := by
  simp [cloneStrVal, stripStrVal]

theorem stripAttData_clone (d : HAttData) (n : Nat) :
    stripAttData (cloneAttData d n).1 = stripAttData d := by
  simp [cloneAttData, stripAttData, stripOpt_clone cloneBuf stripBuf stripBuf_clone]

theorem stripAttachment_clone (a : HAttachment) (n : Nat) :
    stripAttachment (cloneAttachment a n).1 = stripAttachment a := by
  simp [cloneAttachment, stripAttachment,
    stripOpt_clone cloneStrVal stripStrVal stripStrVal_clone,
    stripOpt_clone cloneAttData stripAttData stripAttData_clone]

theorem stripAttachments_clone (l : List HAttachment) :
    ∀ n, ((cloneAttachments l n).1).map stripAttachment = l.map stripAttachment := by
  induction l with
  | nil => intro n; rfl
  | cons a t ih =>
    intro n
    simp [cloneAttachments, stripAttachment_clone, ih]

theorem stripElem_clone (e : HElem) (n : Nat) :
    stripElem (cloneElem e n).1 = stripElem e := by
  simp [cloneElem, stripElem, stripOpt_clone cloneStrVal stripStrVal stripStrVal_clone]

theorem stripDesign_clone (d : HDesign) (n : Nat) :
    stripDesign (cloneDesign d n).1 = stripDesign d := by
  simp [cloneDesign, stripDesign, stripAttachments_clone]

theorem stripDoc_clone (d : HDoc) (n : Nat) :
    stripDoc (cloneDoc d n).1 = stripDoc d := by
  simp [cloneDoc, stripDoc, stripOpt_clone cloneElem stripElem stripElem_clone,
    stripOpt_clone cloneDesign stripDesign stripDesign_clone]

theorem idsOf_hSetName (d : HDoc) (e : HElem) (a : String) (k : Nat)
    (hpe : d.playElement = some e) :
    idsOfDoc (hSetName d a k).1 = idsOfDoc d := by
  simp [hSetName, hpe, idsOfDoc, idsOfElem, idsOfOpt]

/-- C7: constructing two Modifiers from one fetched document and calling
`setName` with two different values yields `build()` results carrying the
respective distinct names; the clones' contents equal the original document's
content (nested arrays and binary payload bytes included), and — since every
operation only touches nodes of its own clone — the heap identities of the
two modifiers' documents are disjoint from each other and from the original,
so the original is unchanged after both and no mutable structure is
shared. -/
theorem modifier_isolation
    (doc : HDoc) (e : HElem) (des : HDesign) (a b : String) (n0 k1 k2 : Nat)
    (hwf : ∀ i ∈ idsOfDoc doc, i < n0)
    (hpe : doc.playElement = some e) (hpd : doc.playElementDesign = some des) :
    ∃ e1 des1 e2 des2,
      hBuild (hSetName (cloneDoc doc n0).1 a k1).1 = .ok (e1, des1) ∧
      hBuild (hSetName (cloneDoc doc (cloneDoc doc n0).2).1 b k2).1 = .ok (e2, des2) ∧
      e1.name = some a ∧
      e2.name = some b ∧
      (a ≠ b → e1.name ≠ e2.name) ∧
      stripDoc (cloneDoc doc n0).1 = stripDoc doc ∧
      stripDoc (cloneDoc doc (cloneDoc doc n0).2).1 = stripDoc doc ∧
      List.Disjoint (idsOfDoc (hSetName (cloneDoc doc n0).1 a k1).1) (idsOfDoc doc) ∧
      List.Disjoint (idsOfDoc (hSetName (cloneDoc doc (cloneDoc doc n0).2).1 b k2).1) (idsOfDoc doc) ∧
      List.Disjoint (idsOfDoc (hSetName (cloneDoc doc n0).1 a k1).1)
        (idsOfDoc (hSetName (cloneDoc doc (cloneDoc doc n0).2).1 b k2).1) := by
  have hpe1 : (cloneDoc doc n0).1.playElement = some (cloneElem e (n0 + 1)).1 := by
    simp [cloneDoc, hpe, cloneOpt]
  have hpd1 : (cloneDoc doc n0).1.playElementDesign =
      some (cloneDesign des ((cloneOpt cloneElem doc.playElement (n0 + 1)).2)).1 := by
    simp [cloneDoc, hpd, cloneOpt]
  have hpe2 : (cloneDoc doc (cloneDoc doc n0).2).1.playElement =
      some (cloneElem e ((cloneDoc doc n0).2 + 1)).1 := by
    simp [cloneDoc, hpe, cloneOpt]
  have hpd2 : (cloneDoc doc (cloneDoc doc n0).2).1.playElementDesign =
      some (cloneDesign des ((cloneOpt cloneElem doc.playElement ((cloneDoc doc n0).2 + 1)).2)).1 := by
    simp [cloneDoc, hpd, cloneOpt]
  have hm1 : (hSetName (cloneDoc doc n0).1 a k1).1 =
      { (cloneDoc doc n0).1 with playElement := some { (cloneElem e (n0 + 1)).1 with name := some a } } := by
    rw [hSetName, hpe1]
  have hm2 : (hSetName (cloneDoc doc (cloneDoc doc n0).2).1 b k2).1 =
      { (cloneDoc doc (cloneDoc doc n0).2).1 with playElement := some { (cloneElem e ((cloneDoc doc n0).2 + 1)).1 with name := some b } } := by
    rw [hSetName, hpe2]
  have hids1 : idsOfDoc (hSetName (cloneDoc doc n0).1 a k1).1 =
      idsOfDoc (cloneDoc doc n0).1 :=
    idsOf_hSetName _ _ a k1 hpe1
  have hids2 : idsOfDoc (hSetName (cloneDoc doc (cloneDoc doc n0).2).1 b k2).1 =
      idsOfDoc (cloneDoc doc (cloneDoc doc n0).2).1 :=
    idsOf_hSetName _ _ b k2 hpe2
  have hbound1 := cloneDoc_bound doc n0
  have hbound2 := cloneDoc_bound doc (cloneDoc doc n0).2
  have hle1 := cloneDoc_le doc n0
  have hb1 : hBuild (hSetName (cloneDoc doc n0).1 a k1).1 =
      .ok ({ (cloneElem e (n0 + 1)).1 with name := some a },
        (cloneDesign des ((cloneOpt cloneElem doc.playElement (n0 + 1)).2)).1) := by
    rw [hm1, hBuild.eq_def]
    simp [hpd1]
  have hb2 : hBuild (hSetName (cloneDoc doc (cloneDoc doc n0).2).1 b k2).1 =
      .ok ({ (cloneElem e ((cloneDoc doc n0).2 + 1)).1 with name := some b },
        (cloneDesign des ((cloneOpt cloneElem doc.playElement ((cloneDoc doc n0).2 + 1)).2)).1) := by
    rw [hm2, hBuild.eq_def]
    simp [hpd2]
  refine ⟨_, _, _, _, hb1, hb2, rfl, rfl, ?_, stripDoc_clone doc n0,
    stripDoc_clone doc (cloneDoc doc n0).2, ?_, ?_, ?_⟩
  · intro hab hcontra
    simp at hcontra
    exact hab hcontra
  · intro i hi hj
    rw [hids1] at hi
    have h1 := hbound1 i hi
    have h2 := hwf i hj
    omega
  · intro i hi hj
    rw [hids2] at hi
    have h1 := hbound2 i hi
    have h2 := hwf i hj
    omega
  · intro i hi hj
    rw [hids1] at hi
    rw [hids2] at hj
    have h1 := hbound1 i hi
    have h2 := hbound2 i hj
    omega

/-- Witness for C7 at a concrete document holding a binary payload and a
nested attachment array. -/
theorem modifier_isolation_witness :
    ∃ e1 des1 e2 des2,
      hBuild (hSetName (cloneDoc ({ nodeId := 1, playElement := some { nodeId := 2, id := none, name := some "orig", description := some ⟨3, "desc"⟩, publishStateType := none }, playElementDesign := some { nodeId := 4, designId := none, attsArrId := 5, attachments := [{ nodeId := 6, id := some "att", version := none, filename := none, attachmentType := 2, processingStatus := none, metadata := none, attachmentData := some ⟨7, some ⟨8, true, [1, 2, 3]⟩, none⟩, errors := [] }] } } : HDoc) 9).1 "name-a" 100).1 = .ok (e1, des1) ∧
      hBuild (hSetName (cloneDoc ({ nodeId := 1, playElement := some { nodeId := 2, id := none, name := some "orig", description := some ⟨3, "desc"⟩, publishStateType := none }, playElementDesign := some { nodeId := 4, designId := none, attsArrId := 5, attachments := [{ nodeId := 6, id := some "att", version := none, filename := none, attachmentType := 2, processingStatus := none, metadata := none, attachmentData := some ⟨7, some ⟨8, true, [1, 2, 3]⟩, none⟩, errors := [] }] } } : HDoc) (cloneDoc ({ nodeId := 1, playElement := some { nodeId := 2, id := none, name := some "orig", description := some ⟨3, "desc"⟩, publishStateType := none }, playElementDesign := some { nodeId := 4, designId := none, attsArrId := 5, attachments := [{ nodeId := 6, id := some "att", version := none, filename := none, attachmentType := 2, processingStatus := none, metadata := none, attachmentData := some ⟨7, some ⟨8, true, [1, 2, 3]⟩, none⟩, errors := [] }] } } : HDoc) 9).2).1 "name-b" 200).1 = .ok (e2, des2) ∧
      e1.name = some "name-a" ∧
      e2.name = some "name-b" ∧
      ("name-a" ≠ "name-b" → e1.name ≠ e2.name) ∧
      stripDoc (cloneDoc ({ nodeId := 1, playElement := some { nodeId := 2, id := none, name := some "orig", description := some ⟨3, "desc"⟩, publishStateType := none }, playElementDesign := some { nodeId := 4, designId := none, attsArrId := 5, attachments := [{ nodeId := 6, id := some "att", version := none, filename := none, attachmentType := 2, processingStatus := none, metadata := none, attachmentData := some ⟨7, some ⟨8, true, [1, 2, 3]⟩, none⟩, errors := [] }] } } : HDoc) 9).1 = stripDoc ({ nodeId := 1, playElement := some { nodeId := 2, id := none, name := some "orig", description := some ⟨3, "desc"⟩, publishStateType := none }, playElementDesign := some { nodeId := 4, designId := none, attsArrId := 5, attachments := [{ nodeId := 6, id := some "att", version := none, filename := none, attachmentType := 2, processingStatus := none, metadata := none, attachmentData := some ⟨7, some ⟨8, true, [1, 2, 3]⟩, none⟩, errors := [] }] } } : HDoc) ∧
      stripDoc (cloneDoc ({ nodeId := 1, playElement := some { nodeId := 2, id := none, name := some "orig", description := some ⟨3, "desc"⟩, publishStateType := none }, playElementDesign := some { nodeId := 4, designId := none, attsArrId := 5, attachments := [{ nodeId := 6, id := some "att", version := none, filename := none, attachmentType := 2, processingStatus := none, metadata := none, attachmentData := some ⟨7, some ⟨8, true, [1, 2, 3]⟩, none⟩, errors := [] }] } } : HDoc) (cloneDoc ({ nodeId := 1, playElement := some { nodeId := 2, id := none, name := some "orig", description := some ⟨3, "desc"⟩, publishStateType := none }, playElementDesign := some { nodeId := 4, designId := none, attsArrId := 5, attachments := [{ nodeId := 6, id := some "att", version := none, filename := none, attachmentType := 2, processingStatus := none, metadata := none, attachmentData := some ⟨7, some ⟨8, true, [1, 2, 3]⟩, none⟩, errors := [] }] } } : HDoc) 9).2).1 = stripDoc ({ nodeId := 1, playElement := some { nodeId := 2, id := none, name := some "orig", description := some ⟨3, "desc"⟩, publishStateType := none }, playElementDesign := some { nodeId := 4, designId := none, attsArrId := 5, attachments := [{ nodeId := 6, id := some "att", version := none, filename := none, attachmentType := 2, processingStatus := none, metadata := none, attachmentData := some ⟨7, some ⟨8, true, [1, 2, 3]⟩, none⟩, errors := [] }] } } : HDoc) ∧
      List.Disjoint (idsOfDoc (hSetName (cloneDoc ({ nodeId := 1, playElement := some { nodeId := 2, id := none, name := some "orig", description := some ⟨3, "desc"⟩, publishStateType := none }, playElementDesign := some { nodeId := 4, designId := none, attsArrId := 5, attachments := [{ nodeId := 6, id := some "att", version := none, filename := none, attachmentType := 2, processingStatus := none, metadata := none, attachmentData := some ⟨7, some ⟨8, true, [1, 2, 3]⟩, none⟩, errors := [] }] } } : HDoc) 9).1 "name-a" 100).1) (idsOfDoc ({ nodeId := 1, playElement := some { nodeId := 2, id := none, name := some "orig", description := some ⟨3, "desc"⟩, publishStateType := none }, playElementDesign := some { nodeId := 4, designId := none, attsArrId := 5, attachments := [{ nodeId := 6, id := some "att", version := none, filename := none, attachmentType := 2, processingStatus := none, metadata := none, attachmentData := some ⟨7, some ⟨8, true, [1, 2, 3]⟩, none⟩, errors := [] }] } } : HDoc)) ∧
      List.Disjoint (idsOfDoc (hSetName (cloneDoc ({ nodeId := 1, playElement := some { nodeId := 2, id := none, name := some "orig", description := some ⟨3, "desc"⟩, publishStateType := none }, playElementDesign := some { nodeId := 4, designId := none, attsArrId := 5, attachments := [{ nodeId := 6, id := some "att", version := none, filename := none, attachmentType := 2, processingStatus := none, metadata := none, attachmentData := some ⟨7, some ⟨8, true, [1, 2, 3]⟩, none⟩, errors := [] }] } } : HDoc) (cloneDoc ({ nodeId := 1, playElement := some { nodeId := 2, id := none, name := some "orig", description := some ⟨3, "desc"⟩, publishStateType := none }, playElementDesign := some { nodeId := 4, designId := none, attsArrId := 5, attachments := [{ nodeId := 6, id := some "att", version := none, filename := none, attachmentType := 2, processingStatus := none, metadata := none, attachmentData := some ⟨7, some ⟨8, true, [1, 2, 3]⟩, none⟩, errors := [] }] } } : HDoc) 9).2).1 "name-b" 200).1) (idsOfDoc ({ nodeId := 1, playElement := some { nodeId := 2, id := none, name := some "orig", description := some ⟨3, "desc"⟩, publishStateType := none }, playElementDesign := some { nodeId := 4, designId := none, attsArrId := 5, attachments := [{ nodeId := 6, id := some "att", version := none, filename := none, attachmentType := 2, processingStatus := none, metadata := none, attachmentData := some ⟨7, some ⟨8, true, [1, 2, 3]⟩, none⟩, errors := [] }] } } : HDoc)) ∧
      List.Disjoint (idsOfDoc (hSetName (cloneDoc ({ nodeId := 1, playElement := some { nodeId := 2, id := none, name := some "orig", description := some ⟨3, "desc"⟩, publishStateType := none }, playElementDesign := some { nodeId := 4, designId := none, attsArrId := 5, attachments := [{ nodeId := 6, id := some "att", version := none, filename := none, attachmentType := 2, processingStatus := none, metadata := none, attachmentData := some ⟨7, some ⟨8, true, [1, 2, 3]⟩, none⟩, errors := [] }] } } : HDoc) 9).1 "name-a" 100).1)
        (idsOfDoc (hSetName (cloneDoc ({ nodeId := 1, playElement := some { nodeId := 2, id := none, name := some "orig", description := some ⟨3, "desc"⟩, publishStateType := none }, playElementDesign := some { nodeId := 4, designId := none, attsArrId := 5, attachments := [{ nodeId := 6, id := some "att", version := none, filename := none, attachmentType := 2, processingStatus := none, metadata := none, attachmentData := some ⟨7, some ⟨8, true, [1, 2, 3]⟩, none⟩, errors := [] }] } } : HDoc) (cloneDoc ({ nodeId := 1, playElement := some { nodeId := 2, id := none, name := some "orig", description := some ⟨3, "desc"⟩, publishStateType := none }, playElementDesign := some { nodeId := 4, designId := none, attsArrId := 5, attachments := [{ nodeId := 6, id := some "att", version := none, filename := none, attachmentType := 2, processingStatus := none, metadata := none, attachmentData := some ⟨7, some ⟨8, true, [1, 2, 3]⟩, none⟩, errors := [] }] } } : HDoc) 9).2).1 "name-b" 200).1) :=
  modifier_isolation ({ nodeId := 1, playElement := some { nodeId := 2, id := none, name := some "orig", description := some ⟨3, "desc"⟩, publishStateType := none }, playElementDesign := some { nodeId := 4, designId := none, attsArrId := 5, attachments := [{ nodeId := 6, id := some "att", version := none, filename := none, attachmentType := 2, processingStatus := none, metadata := none, attachmentData := some ⟨7, some ⟨8, true, [1, 2, 3]⟩, none⟩, errors := [] }] } } : HDoc)
    { nodeId := 2, id := none, name := some "orig", description := some ⟨3, "desc"⟩, publishStateType := none }
    { nodeId := 4, designId := none, attsArrId := 5, attachments := [{ nodeId := 6, id := some "att", version := none, filename := none, attachmentType := 2, processingStatus := none, metadata := none, attachmentData := some ⟨7, some ⟨8, true, [1, 2, 3]⟩, none⟩, errors := [] }] }
    "name-a" "name-b" 9 100 200 (by decide) rfl rfl


/-- The clearing step's allocator is monotone. -/
theorem hCleanAttachment_le (a : HAttachment) (n : Nat) : n ≤ (hCleanAttachment a n).2 := by
  rw [hCleanAttachment]
  by_cases h : a.errors = [] <;> simp [h]

/-- The clearing map's allocator is monotone. -/
theorem hCleanAttachments_le (l : List HAttachment) :
    ∀ n, n ≤ (hCleanAttachments l n).2 := by
  induction l with
  | nil => intro n; simp [hCleanAttachments]
  | cons a t ih =>
    intro n
    have h1 := hCleanAttachment_le a n
    have h2 := ih (hCleanAttachment a n).2
    simp only [hCleanAttachments]
    omega

/-- Every attachment of the cleaned list has an empty error list. -/
theorem hCleanAttachments_errors (l : List HAttachment) :
    ∀ n, ∀ a ∈ (hCleanAttachments l n).1, a.errors = [] := by
  induction l with
  | nil => intro n a ha; simp [hCleanAttachments] at ha
  | cons x t ih =>
    intro n a ha
    simp only [hCleanAttachments, List.mem_cons] at ha
    rcases ha with rfl | ha
    · rw [hCleanAttachment]
      by_cases h : x.errors = [] <;> simp [h]
    · exact ih (hCleanAttachment x n).2 a ha

/-- Every attachment of the cleaned list is either a caller attachment passed
through by reference or a freshly allocated spread copy. -/
theorem hCleanAttachments_mem_or_fresh (l : List HAttachment) :
    ∀ n, ∀ a ∈ (hCleanAttachments l n).1,
      a ∈ l ∨ (n ≤ a.nodeId ∧ a.nodeId < (hCleanAttachments l n).2) := by
  induction l with
  | nil => intro n a ha; simp [hCleanAttachments] at ha
  | cons x t ih =>
    intro n a ha
    have hle1 := hCleanAttachment_le x n
    have hle2 := hCleanAttachments_le t (hCleanAttachment x n).2
    simp only [hCleanAttachments, List.mem_cons] at ha ⊢
    rcases ha with rfl | ha
    · by_cases h : x.errors = []
      · have hx : (hCleanAttachment x n).1 = x := by simp [hCleanAttachment, h]
        rw [hx]
        exact Or.inl (Or.inl rfl)
      · have hx1 : (hCleanAttachment x n).1.nodeId = n := by simp [hCleanAttachment, h]
        have hx2 : (hCleanAttachment x n).2 = n + 1 := by simp [hCleanAttachment, h]
        right
        rw [hx1]
        omega
    · rcases ih (hCleanAttachment x n).2 a ha with hmem | hb
      · exact Or.inl (Or.inr hmem)
      · right
        omega

end HeapModel

/-- Reading back the element just written by `List.set`. -/
theorem getD_set_self (l : List Attachment) (i : Nat) (a d : Attachment)
    (h : i < l.length) : (l.set i a).getD i d = a := by
  simp [List.getD_eq_getElem?_getD, List.getElem?_set_self, h]

/-- Every TypeScript-attachment index is in range. -/
theorem tsIndices_lt (atts : List Attachment) :
    ∀ i ∈ tsIndices atts, i < atts.length := by
  intro i hi
  have := List.mem_filter.mp hi
  exact List.mem_range.mp this.1

/-- A non-empty TypeScript-attachment list always yields a selection. -/
theorem selectTsIndex_eq_some (atts : List Attachment) (hts : tsIndices atts ≠ []) :
    ∃ sel, selectTsIndex atts = some sel := by
  rcases htl : tsIndices atts with _ | ⟨i0, rest⟩
  · exact absurd htl hts
  · by_cases hr : rest = []
    · exact ⟨i0, by rw [selectTsIndex, htl]; simp [hr]⟩
    · exact ⟨((i0 :: rest).find? (scriptTsAt atts)).getD i0,
        by rw [selectTsIndex, htl]; simp [hr]⟩

/-- The selected index is one of the TypeScript-attachment indices. -/
theorem selectTsIndex_mem (atts : List Attachment) (sel : Nat)
    (h : selectTsIndex atts = some sel) : sel ∈ tsIndices atts := by
  rcases htl : tsIndices atts with _ | ⟨i0, rest⟩
  · rw [selectTsIndex, htl] at h
    exact absurd h (by simp)
  · rw [selectTsIndex, htl] at h
    by_cases hr : rest = []
    · simp [hr] at h
      subst h
      simp [htl, hr]
    · simp only [hr, if_false, Option.some_inj] at h
      rcases hf : (i0 :: rest).find? (scriptTsAt atts) with _ | k
      · rw [hf] at h
        simp at h
        subst h
        simp [htl]
      · rw [hf] at h
        simp at h
        subst h
        have hk := List.mem_of_find?_eq_some hf
        simp [htl, hk]

/-- With exactly one TypeScript attachment, that one is selected. -/
theorem selectTsIndex_singleton (atts : List Attachment) (i0 : Nat)
    (h : tsIndices atts = [i0]) : selectTsIndex atts = some i0 := by
  rw [selectTsIndex, h]
  simp

/-- When some TypeScript attachment is named `Script.ts`, the selected one is
named `Script.ts`. -/
theorem selectTsIndex_script (atts : List Attachment) (sel : Nat)
    (h : selectTsIndex atts = some sel)
    (hex : ∃ j ∈ tsIndices atts,
      filenameValue (atts.getD j default).filename = some "Script.ts") :
    filenameValue (atts.getD sel default).filename = some "Script.ts" := by
  obtain ⟨j, hj, hpj⟩ := hex
  rcases htl : tsIndices atts with _ | ⟨i0, rest⟩
  · rw [htl] at hj
    simp at hj
  · rw [selectTsIndex, htl] at h
    by_cases hr : rest = []
    · simp [hr] at h
      rw [htl, hr] at hj
      simp at hj
      rw [← h, ← hj]
      exact hpj
    · simp only [hr, if_false, Option.some_inj] at h
      rcases hf : (i0 :: rest).find? (scriptTsAt atts) with _ | k
      · rw [List.find?_eq_none] at hf
        rw [htl] at hj
        exact absurd (by simpa [scriptTsAt] using hpj) (hf j hj)
      · rw [hf] at h
        simp at h
        subst h
        have := List.find?_some hf
        simpa [scriptTsAt] using this

/-- With several TypeScript attachments and none named `Script.ts`, the first
in list order is selected. -/
theorem selectTsIndex_first (atts : List Attachment) (i0 : Nat) (rest : List Nat)
    (h : tsIndices atts = i0 :: rest) (hr : rest ≠ [])
    (hnone : ∀ j ∈ tsIndices atts,
      filenameValue (atts.getD j default).filename ≠ some "Script.ts") :
    selectTsIndex atts = some i0 := by
  rw [selectTsIndex, h]
  have hf : (i0 :: rest).find? (scriptTsAt atts) = none := by
    rw [List.find?_eq_none]
    intro a ha
    simpa [scriptTsAt] using hnone a (by rw [h]; exact ha)
  simp [hr, hf]

/-- C5: for a document whose design contains at least one SCRIPT-type
attachment with a `.ts` filename, `setTypeScriptCode code` succeeds, and the
selected attachment (the unique one if single; the one named `Script.ts` if
one exists among several; else the first in list order) ends with processing
status `PENDING (1)`, original payload equal to the UTF-8 bytes of `code`,
and the compiled field entirely absent (the key is deleted, not null or
empty). -/
theorem script_payload_reset
    (resp : PlayElementResponse) (design : PlayElementDesign)
    (atts : List Attachment) (code : String)
    (hdes : resp.playElementDesign = some design)
    (hatts : design.attachments = some atts)
    (hts : tsIndices atts ≠ []) :
    ∃ sel,
      selectTsIndex atts = some sel ∧
      sel ∈ tsIndices atts ∧
      (∀ i0, tsIndices atts = [i0] → sel = i0) ∧
      ((∃ j ∈ tsIndices atts,
          filenameValue (atts.getD j default).filename = some "Script.ts") →
        filenameValue (atts.getD sel default).filename = some "Script.ts") ∧
      (∀ i0 rest, tsIndices atts = i0 :: rest → rest ≠ [] →
        (∀ j ∈ tsIndices atts,
          filenameValue (atts.getD j default).filename ≠ some "Script.ts") →
        sel = i0) ∧
      ∃ atts',
        setTypeScriptCode resp code = .ok { resp with playElementDesign := some ({ design with attachments := some atts' }) } ∧
        (atts'.getD sel default).processingStatus = some 1 ∧
        ∃ ad, (atts'.getD sel default).attachmentData = some ad ∧
          ad.original = .bytes (utf8Bytes code) ∧
          ad.compiled = .absent := by
  obtain ⟨sel, hsel⟩ := selectTsIndex_eq_some atts hts
  have hmem := selectTsIndex_mem atts sel hsel
  have hlt : sel < atts.length := tsIndices_lt atts sel hmem
  refine ⟨sel, hsel, hmem, ?_, ?_, ?_, ?_⟩
  · intro i0 h0
    have := selectTsIndex_singleton atts i0 h0
    rw [hsel] at this
    exact Option.some_inj.mp this
  · exact selectTsIndex_script atts sel hsel
  · intro i0 rest h0 hr hnone
    have := selectTsIndex_first atts i0 rest h0 hr hnone
    rw [hsel] at this
    exact Option.some_inj.mp this
  · refine ⟨atts.set sel ({ atts.getD sel default with attachmentData := some ({ (atts.getD sel default).attachmentData.getD ⟨.absent, .absent⟩ with original := .bytes (utf8Bytes code), compiled := .absent }), processingStatus := some 1 }), ?_, ?_, ?_⟩
    · rw [setTypeScriptCode, hdes]
      simp only [hatts, Option.getD_some, hsel]
    · rw [getD_set_self _ _ _ _ hlt]
    · rw [getD_set_self _ _ _ _ hlt]
      exact ⟨_, rfl, rfl, rfl⟩


/-- Witness for C5 at a concrete document with a single `Script.ts`
attachment. -/
theorem script_payload_reset_witness :
    ∃ sel,
      selectTsIndex [{ attachmentType := .num 2, filename := .wrapped "Script.ts" }] = some sel ∧
      sel ∈ tsIndices [{ attachmentType := .num 2, filename := .wrapped "Script.ts" }] ∧
      (∀ i0, tsIndices [{ attachmentType := .num 2, filename := .wrapped "Script.ts" }] = [i0] → sel = i0) ∧
      ((∃ j ∈ tsIndices [{ attachmentType := .num 2, filename := .wrapped "Script.ts" }],
          filenameValue (([{ attachmentType := .num 2, filename := .wrapped "Script.ts" }] : List Attachment).getD j default).filename = some "Script.ts") →
        filenameValue (([{ attachmentType := .num 2, filename := .wrapped "Script.ts" }] : List Attachment).getD sel default).filename = some "Script.ts") ∧
      (∀ i0 rest, tsIndices [{ attachmentType := .num 2, filename := .wrapped "Script.ts" }] = i0 :: rest → rest ≠ [] →
        (∀ j ∈ tsIndices [{ attachmentType := .num 2, filename := .wrapped "Script.ts" }],
          filenameValue (([{ attachmentType := .num 2, filename := .wrapped "Script.ts" }] : List Attachment).getD j default).filename ≠ some "Script.ts") →
        sel = i0) ∧
      ∃ atts',
        setTypeScriptCode { playElementDesign := some { attachments := some [{ attachmentType := .num 2, filename := .wrapped "Script.ts" }] } } "code" = .ok { playElement := none, playElementDesign := some ({ attachments := some atts' } : PlayElementDesign) } ∧
        (atts'.getD sel default).processingStatus = some 1 ∧
        ∃ ad, (atts'.getD sel default).attachmentData = some ad ∧
          ad.original = .bytes (utf8Bytes "code") ∧
          ad.compiled = .absent :=
  script_payload_reset { playElementDesign := some { attachments := some [{ attachmentType := .num 2, filename := .wrapped "Script.ts" }] } }
    { attachments := some [{ attachmentType := .num 2, filename := .wrapped "Script.ts" }] }
    [{ attachmentType := .num 2, filename := .wrapped "Script.ts" }] "code"
    rfl rfl (by decide)

/-- Reading at the appended position of a one-element append. -/
theorem getD_append_singleton (l : List Attachment) (a d : Attachment) :
    (l ++ [a]).getD l.length d = a := by
  induction l with
  | nil => rfl
  | cons x t ih => simp [ih]

/-- Writing at the appended position of a one-element append. -/
theorem set_append_singleton (l : List Attachment) (a b : Attachment) :
    (l ++ [a]).set l.length b = l ++ [b] := by
  induction l with
  | nil => rfl
  | cons x t ih => simp [ih]

/-- `findIndex` over a list whose only match is the appended element. -/
theorem findIdx?_append_singleton (p : Attachment → Bool) (l : List Attachment)
    (a : Attachment) (hl : ∀ x ∈ l, p x = false) (ha : p a = true) :
    (l ++ [a]).findIdx? p = some l.length := by
  induction l with
  | nil => simp [List.findIdx?_cons, ha]
  | cons x t ih =>
    have hx : p x = false := hl x (by simp)
    have ht : ∀ y ∈ t, p y = false := fun y hy => hl y (by simp [hy])
    simp [List.findIdx?_cons, hx, ih ht]

/-- `findIndex` misses when no element matches. -/
theorem findIdx?_eq_none_of_all (p : Attachment → Bool) (l : List Attachment)
    (hl : ∀ x ∈ l, p x = false) : l.findIdx? p = none := by
  induction l with
  | nil => rfl
  | cons x t ih =>
    have hx : p x = false := hl x (by simp)
    have ht : ∀ y ∈ t, p y = false := fun y hy => hl y (by simp [hy])
    simp [List.findIdx?_cons, hx, ih ht]

/-- The spatial-attachment loop skips maps without spatial data, advancing
the rotation index. -/
theorem applySpatials_skip (pre rest : List MapEntry) (k : Nat)
    (fresh : Nat → String) (resp : PlayElementResponse)
    (h : ∀ m ∈ pre, m.spatialData = none) :
    applySpatials (pre ++ rest) k fresh resp =
      applySpatials rest (k + pre.length) fresh resp := by
  induction pre generalizing k with
  | nil => simp
  | cons m t ih =>
    have hm : m.spatialData = none := h m (by simp)
    have ht : ∀ x ∈ t, x.spatialData = none := fun x hx => h x (by simp [hx])
    have harith : k + (m :: t).length = k + 1 + t.length := by
      simp
      omega
    rw [List.cons_append, applySpatials, hm, ih (k + 1) ht, harith]

/-- The spatial-attachment loop is the identity on a list of maps without
spatial data. -/
theorem applySpatials_all_none (ms : List MapEntry) (k : Nat)
    (fresh : Nat → String) (resp : PlayElementResponse)
    (h : ∀ m ∈ ms, m.spatialData = none) :
    applySpatials ms k fresh resp = .ok resp := by
  induction ms generalizing k with
  | nil => rfl
  | cons m t ih =>
    have hm : m.spatialData = none := h m (by simp)
    have ht : ∀ x ∈ t, x.spatialData = none := fun x hx => h x (by simp [hx])
    rw [applySpatials, hm, ih (k + 1) ht]

/-- Closed form of `setSpatialAttachment` when no SPATIAL attachment for the
index exists: a new attachment with the fresh id and version "1" is
appended. -/
theorem setSpatialAttachment_append (resp : PlayElementResponse)
    (design : PlayElementDesign) (i : Nat) (sdata fname fid : String)
    (hdes : resp.playElementDesign = some design)
    (hnone : ∀ a ∈ design.attachments.getD [], isSpatialForIdx i a = false) :
    setSpatialAttachment resp i sdata fname fid =
      .ok { resp with playElementDesign := some ({ design with attachments := some (design.attachments.getD [] ++ [{ id := some fid, version := some "1", filename := .wrapped fname, attachmentType := .num 1, processingStatus := some 1, isProcessable := some true, attachmentData := some { original := .bytes (utf8Bytes sdata), compiled := .absent }, metadata := some (mapIdxTag i), errors := [] }]) }) } := by
  rw [setSpatialAttachment, hdes]
  simp only [findIdx?_eq_none_of_all _ _ hnone]

/-- Closed form of `setSpatialAttachment` when `findIndex` locates an
existing SPATIAL attachment for the index: it is overwritten in place with
its id and version preserved. -/
theorem setSpatialAttachment_update (resp : PlayElementResponse)
    (design : PlayElementDesign) (i : Nat) (sdata fname fid : String) (j : Nat)
    (hdes : resp.playElementDesign = some design)
    (hfind : (design.attachments.getD []).findIdx? (isSpatialForIdx i) = some j) :
    setSpatialAttachment resp i sdata fname fid =
      .ok { resp with playElementDesign := some ({ design with attachments := some ((design.attachments.getD []).set j { id := ((design.attachments.getD []).getD j default).id, version := ((design.attachments.getD []).getD j default).version, filename := .wrapped fname, attachmentType := .num 1, processingStatus := some 1, isProcessable := some true, attachmentData := some { original := .bytes (utf8Bytes sdata), compiled := .absent }, metadata := some (mapIdxTag i), errors := [] }) }) } := by
  rw [setSpatialAttachment, hdes]
  simp only [hfind]

/-- C6: calling `setMapRotation` with a map list whose entry at index
`i = pre.length` carries spatial data appends exactly one new SPATIAL
attachment with metadata `mapIdx=i`, the freshly generated id, and version
"1" when no SPATIAL attachment with that metadata exists; a second call with
different spatial content for the same index overwrites that same
attachment's payload in place (the attachment list keeps its length and
position) while preserving its id and version. -/
theorem spatial_auto_attachment
    (resp : PlayElementResponse) (design : PlayElementDesign)
    (pre post pre' post' : List MapEntry) (mi mi' : MapEntry)
    (s s' : String) (rb rb' : Int) (fresh fresh' : Nat → String)
    (hdes : resp.playElementDesign = some design)
    (hpre : ∀ m ∈ pre, m.spatialData = none) (hpost : ∀ m ∈ post, m.spatialData = none)
    (hmi : mi.spatialData = some s) (hs : s ≠ "")
    (hpre' : ∀ m ∈ pre', m.spatialData = none) (hpost' : ∀ m ∈ post', m.spatialData = none)
    (hmi' : mi'.spatialData = some s') (hs' : s' ≠ "")
    (hlen : pre'.length = pre.length)
    (hnone : ∀ a ∈ design.attachments.getD [], isSpatialForIdx pre.length a = false) :
    ∃ resp1 design1 a1 resp2 design2 a2,
      setMapRotation resp (pre ++ mi :: post) rb fresh = .ok resp1 ∧
      resp1.playElementDesign = some design1 ∧
      design1.attachments = some (design.attachments.getD [] ++ [a1]) ∧
      a1.id = some (fresh pre.length) ∧ a1.version = some "1" ∧
      a1.metadata = some (mapIdxTag pre.length) ∧ a1.attachmentType = .num 1 ∧
      a1.attachmentData = some { original := .bytes (utf8Bytes s), compiled := .absent } ∧
      setMapRotation resp1 (pre' ++ mi' :: post') rb' fresh' = .ok resp2 ∧
      resp2.playElementDesign = some design2 ∧
      design2.attachments = some (design.attachments.getD [] ++ [a2]) ∧
      a2.id = some (fresh pre.length) ∧ a2.version = some "1" ∧
      a2.attachmentData = some { original := .bytes (utf8Bytes s'), compiled := .absent } := by
  have e1 : setMapRotation resp (pre ++ mi :: post) rb fresh =
      applySpatials (pre ++ mi :: post) 0 fresh { resp with playElementDesign := some { design with mapRotation := some { maps := (pre ++ mi :: post).map fillMapEntry, attributes := { rotationBehavior := rb } } } } := by
    rw [setMapRotation, hdes]
  rw [applySpatials_skip pre (mi :: post) 0 fresh _ hpre, Nat.zero_add] at e1
  rw [applySpatials, hmi] at e1
  simp only [if_neg hs] at e1
  rw [setSpatialAttachment_append _
      ({ design with mapRotation := some { maps := (pre ++ mi :: post).map fillMapEntry, attributes := { rotationBehavior := rb } } })
      pre.length s (mi.spatialFilename.getD (defaultSpatialFilename mi.levelName pre.length)) (fresh pre.length) rfl hnone] at e1
  simp only [] at e1
  rw [applySpatials_all_none post _ _ _ hpost] at e1
  have e1' : setMapRotation resp (pre ++ mi :: post) rb fresh = .ok ({ resp with playElementDesign := some ({ design with mapRotation := some ({ maps := (pre ++ mi :: post).map fillMapEntry, attributes := { rotationBehavior := rb } } : MapRotation), attachments := some (design.attachments.getD [] ++ [({ id := some (fresh pre.length), version := some "1", filename := .wrapped (mi.spatialFilename.getD (defaultSpatialFilename mi.levelName pre.length)), attachmentType := .num 1, processingStatus := some 1, isProcessable := some true, attachmentData := some { original := .bytes (utf8Bytes s), compiled := .absent }, metadata := some (mapIdxTag pre.length), errors := [] } : Attachment)]) } : PlayElementDesign) } : PlayElementResponse) := e1
  have e2 : setMapRotation ({ resp with playElementDesign := some ({ design with mapRotation := some ({ maps := (pre ++ mi :: post).map fillMapEntry, attributes := { rotationBehavior := rb } } : MapRotation), attachments := some (design.attachments.getD [] ++ [({ id := some (fresh pre.length), version := some "1", filename := .wrapped (mi.spatialFilename.getD (defaultSpatialFilename mi.levelName pre.length)), attachmentType := .num 1, processingStatus := some 1, isProcessable := some true, attachmentData := some { original := .bytes (utf8Bytes s), compiled := .absent }, metadata := some (mapIdxTag pre.length), errors := [] } : Attachment)]) } : PlayElementDesign) } : PlayElementResponse) (pre' ++ mi' :: post') rb' fresh' = applySpatials (pre' ++ mi' :: post') 0 fresh' { resp with playElementDesign := some ({ design with mapRotation := some ({ maps := (pre' ++ mi' :: post').map fillMapEntry, attributes := { rotationBehavior := rb' } } : MapRotation), attachments := some (design.attachments.getD [] ++ [({ id := some (fresh pre.length), version := some "1", filename := .wrapped (mi.spatialFilename.getD (defaultSpatialFilename mi.levelName pre.length)), attachmentType := .num 1, processingStatus := some 1, isProcessable := some true, attachmentData := some { original := .bytes (utf8Bytes s), compiled := .absent }, metadata := some (mapIdxTag pre.length), errors := [] } : Attachment)]) } : PlayElementDesign) } := rfl
  rw [applySpatials_skip pre' (mi' :: post') 0 fresh' _ hpre', Nat.zero_add, hlen] at e2
  rw [applySpatials, hmi'] at e2
  simp only [if_neg hs'] at e2
  rw [setSpatialAttachment_update _ ({ design with mapRotation := some ({ maps := (pre' ++ mi' :: post').map fillMapEntry, attributes := { rotationBehavior := rb' } } : MapRotation), attachments := some (design.attachments.getD [] ++ [({ id := some (fresh pre.length), version := some "1", filename := .wrapped (mi.spatialFilename.getD (defaultSpatialFilename mi.levelName pre.length)), attachmentType := .num 1, processingStatus := some 1, isProcessable := some true, attachmentData := some { original := .bytes (utf8Bytes s), compiled := .absent }, metadata := some (mapIdxTag pre.length), errors := [] } : Attachment)]) } : PlayElementDesign) pre.length s' (mi'.spatialFilename.getD (defaultSpatialFilename mi'.levelName pre.length)) (fresh' pre.length) ((design.attachments.getD []).length) rfl (findIdx?_append_singleton _ _ _ hnone (by simp [isSpatialForIdx]))] at e2
  simp only [Option.getD_some] at e2
  rw [getD_append_singleton, set_append_singleton] at e2
  rw [applySpatials_all_none post' _ _ _ hpost'] at e2
  exact ⟨_, _, _, _, _, _, e1', rfl, rfl, rfl, rfl, rfl, rfl, rfl, e2, rfl, rfl, rfl, rfl, rfl⟩


/-- Witness for C6 at a concrete document without attachments and a
single-map rotation carrying spatial data. -/
theorem spatial_auto_attachment_witness :
    ∃ resp1 design1 a1 resp2 design2 a2,
      setMapRotation { playElementDesign := some {} } [{ levelName := "MP_Battery", spatialData := some "data1" }] 0 (fun _ => "uuid-1") = .ok resp1 ∧
      resp1.playElementDesign = some design1 ∧
      design1.attachments = some (({} : PlayElementDesign).attachments.getD [] ++ [a1]) ∧
      a1.id = some "uuid-1" ∧ a1.version = some "1" ∧
      a1.metadata = some (mapIdxTag 0) ∧ a1.attachmentType = .num 1 ∧
      a1.attachmentData = some { original := .bytes (utf8Bytes "data1"), compiled := .absent } ∧
      setMapRotation resp1 [{ levelName := "MP_Battery", spatialData := some "data2" }] 0 (fun _ => "uuid-2") = .ok resp2 ∧
      resp2.playElementDesign = some design2 ∧
      design2.attachments = some (({} : PlayElementDesign).attachments.getD [] ++ [a2]) ∧
      a2.id = some "uuid-1" ∧ a2.version = some "1" ∧
      a2.attachmentData = some { original := .bytes (utf8Bytes "data2"), compiled := .absent } :=
  spatial_auto_attachment { playElementDesign := some {} } {} [] [] [] []
    { levelName := "MP_Battery", spatialData := some "data1" }
    { levelName := "MP_Battery", spatialData := some "data2" }
    "data1" "data2" 0 0 (fun _ => "uuid-1") (fun _ => "uuid-2")
    rfl (by simp) (by simp) rfl (by decide) (by simp) (by simp) rfl (by decide) rfl (by simp)


/-- C9 counterexample: the restriction name `unknown_name` does not look like
an opaque identifier and is absent from the hardcoded name-to-id table, yet
without a blueprint table the translator does NOT skip it and emits no
warning — it is translated with its name passed through unchanged.  This
refutes the claim that such a restriction "is skipped with a warning". -/
theorem restriction_unresolved_name_counterexample :
    isUuidFormat "unknown_name" = false ∧
    ASSET_CATEGORY_NAME_TO_UUID.lookup (jsToLower "unknown_name") = none ∧
    applyRestrictions [{ tagId := "unknown_name" }] none =
      ([{ tagId := "unknown_name", boolean := { defaultValue := true } }], []) :=
  ⟨by decide, by decide, rfl⟩

/-- C9 as amended: when a blueprint name-to-id table is provided, a
restriction whose tag id is absent from it is skipped with a warning, and a
restriction found in it is translated with the resolved id; when no blueprint
table is available, a restriction whose name is not an opaque identifier and
is absent from the hardcoded table is passed through with its name unchanged
(translated, no warning); and the translation of a whole list never fails —
it is exactly the per-restriction translation with the skipped entries
dropped. -/
theorem restriction_resolution_amended :
    (∀ (r : AssetRestriction) (blueprint : List (String × String)),
      r.tagId ≠ "" → blueprint.lookup r.tagId = none →
      convertAssetRestrictionToCategory r (some blueprint) =
        (none, [blueprintWarning r.tagId])) ∧
    (∀ (r : AssetRestriction) (blueprint : List (String × String)) (u : String),
      r.tagId ≠ "" → blueprint.lookup r.tagId = some u → u ≠ "" →
      ∃ cat, convertAssetRestrictionToCategory r (some blueprint) = (some cat, []) ∧
        cat.tagId = u) ∧
    (∀ (r : AssetRestriction),
      r.tagId ≠ "" → isUuidFormat r.tagId = false →
      ASSET_CATEGORY_NAME_TO_UUID.lookup (jsToLower r.tagId) = none →
      ∃ cat, convertAssetRestrictionToCategory r none = (some cat, []) ∧
        cat.tagId = r.tagId) ∧
    (∀ (rs : List AssetRestriction) (bp : Option (List (String × String))),
      (applyRestrictions rs bp).1 =
        rs.filterMap (fun r => (convertAssetRestrictionToCategory r bp).1)) := by
  refine ⟨?_, ?_, ?_, ?_⟩
  · intro r blueprint hne hlook
    simp [convertAssetRestrictionToCategory, hne, hlook]
  · intro r blueprint u hne hlook hu
    refine ⟨buildCategory r u, ?_, rfl⟩
    simp [convertAssetRestrictionToCategory, hne, hlook, hu]
  · intro r hne huuid hlook
    refine ⟨buildCategory r (nameToUUID r.tagId), ?_, ?_⟩
    · simp [convertAssetRestrictionToCategory, hne]
    · simp [buildCategory, nameToUUID, huuid, hlook]
  · intro rs bp
    simp [applyRestrictions, List.filterMap_map]
    rfl

/-- Witness for C9 at concrete restrictions exercising all three modes. -/
theorem restriction_resolution_amended_witness :
    convertAssetRestrictionToCategory { tagId := "weapon" } (some [("vehicle", "uuid-v")]) =
      (none, [blueprintWarning "weapon"]) ∧
    (∃ cat, convertAssetRestrictionToCategory { tagId := "weapon" } (some [("weapon", "uuid-w")]) =
      (some cat, []) ∧ cat.tagId = "uuid-w") ∧
    (∃ cat, convertAssetRestrictionToCategory { tagId := "unknown_name" } none =
      (some cat, []) ∧ cat.tagId = "unknown_name") ∧
    (applyRestrictions [{ tagId := "weapon" }] none).1 =
      [{ tagId := "weapon" }].filterMap
        (fun r => (convertAssetRestrictionToCategory r none).1) :=
  ⟨restriction_resolution_amended.1 { tagId := "weapon" } [("vehicle", "uuid-v")]
      (by decide) (by decide),
   restriction_resolution_amended.2.1 { tagId := "weapon" } [("weapon", "uuid-w")] "uuid-w"
      (by decide) (by decide) (by decide),
   restriction_resolution_amended.2.2.1 { tagId := "unknown_name" }
      (by decide) (by decide) (by decide),
   restriction_resolution_amended.2.2.2 [{ tagId := "weapon" }] none⟩


/-- An id borne (truthily) by some member of the new attachment list is in
the collected id set. -/
theorem mem_collectNewIds (atts : List Attachment) (b : Attachment) (B : String)
    (hb : b ∈ atts) (hid : b.id = some B) (hne : B ≠ "") :
    B ∈ collectNewIds atts := by
  refine List.mem_filterMap.mpr ⟨b, hb, ?_⟩
  rw [hid]
  simp [hne]

/-- When every new attachment carries id `B`, no other id is in the collected
set. -/
theorem not_mem_collectNewIds (atts : List Attachment) (A B : String)
    (hAB : A ≠ B) (hall : ∀ x ∈ atts, x.id = some B) :
    A ∉ collectNewIds atts := by
  intro hmem
  obtain ⟨x, hx, hfx⟩ := List.mem_filterMap.mp hmem
  rw [hall x hx] at hfx
  by_cases hB : B = ""
  · simp [hB] at hfx
  · simp [hB] at hfx
    exact hAB hfx.symm

/-- C1: when the current design carries attachments with ids `[A, B, C]` and
the new design's attachments carry only id `B`, the trace of
`updatePlayElement` is exactly the attachment-deletion call with the id set
`[A, C]` followed by the main update submission, in that order (so the
deletion completes before the update request is encoded and submitted). -/
theorem reconciliation_deletion_set
    (i d A B C : String) (a1 a2 a3 b : Attachment) (newAtts : List Attachment)
    (pe : PlayElement) (pd : PlayElementDesign) (curpe : Option PlayElement)
    (curd : PlayElementDesign) (fetched : PlayElementResponse)
    (hA : a1.id = some A) (hB2 : a2.id = some B) (hC : a3.id = some C)
    (hAne : A ≠ "") (hBne : B ≠ "") (hCne : C ≠ "") (hdne : d ≠ "")
    (hAB : A ≠ B) (hCB : C ≠ B)
    (hdid : curd.designId = some d)
    (hcuratts : curd.attachments = some [a1, a2, a3])
    (hbmem : b ∈ newAtts) (hbid : b.id = some B)
    (hnew : ∀ x ∈ newAtts, x.id = some B)
    (hpdatts : pd.attachments = some newAtts) :
    ∃ payload,
      updatePlayElement ⟨i, some pe, some pd, some ⟨curpe, some curd⟩⟩ fetched =
        .ok [.deleteAttachments d [A, C], .updateElement payload] := by
  have hmemB : B ∈ collectNewIds newAtts :=
    mem_collectNewIds newAtts b B hbmem hbid hBne
  have hmemA : A ∉ collectNewIds newAtts :=
    not_mem_collectNewIds newAtts A B hAB hnew
  have hmemC : C ∉ collectNewIds newAtts :=
    not_mem_collectNewIds newAtts C B hCB hnew
  have hdel : attachmentsToDelete [a1, a2, a3] (collectNewIds newAtts) = [A, C] := by
    simp [attachmentsToDelete, hA, hB2, hC, hmemA, hmemB, hmemC, hAne, hBne, hCne]
  refine ⟨buildUpdatePayload i
      (if (newAtts.any fun a => a.errors ≠ []) = true ∧ pe.publishStateType = some 4
        then { pe with publishStateType := some 1 } else pe)
      { pd with attachments := some (cleanAttachments newAtts) }, ?_⟩
  simp only [updatePlayElement, hcuratts, hpdatts, Option.getD_some, hdel,
    designIdTruthy, hdid]
  simp [hdne]

/-- Witness for C1 at a concrete document. -/
theorem reconciliation_deletion_set_witness :
    ∃ payload,
      updatePlayElement
        ⟨"i", some {}, some { attachments := some [{ id := some "B" }] },
          some ⟨none, some { designId := some "d", attachments := some [{ id := some "A" }, { id := some "B" }, { id := some "C" }] }⟩⟩
        {} =
        .ok [.deleteAttachments "d" ["A", "C"], .updateElement payload] :=
  reconciliation_deletion_set "i" "d" "A" "B" "C"
    { id := some "A" } { id := some "B" } { id := some "C" } { id := some "B" }
    [{ id := some "B" }] {} { attachments := some [{ id := some "B" }] } none
    { designId := some "d", attachments := some [{ id := some "A" }, { id := some "B" }, { id := some "C" }] } {}
    rfl rfl rfl (by decide) (by decide) (by decide) (by decide) (by decide) (by decide)
    rfl rfl (by simp) rfl (by simp) rfl

/-- C10: when the current design has no design id, the deletion call is never
issued even though deletions are scheduled (current ids `[A, B, C]`, new ids
only `B`), and the main update is still submitted without an error: the trace
is exactly the single update call. -/
theorem missing_design_id_skips_deletion
    (i A B C : String) (a1 a2 a3 b : Attachment) (newAtts : List Attachment)
    (pe : PlayElement) (pd : PlayElementDesign) (curpe : Option PlayElement)
    (curd : PlayElementDesign) (fetched : PlayElementResponse)
    (hA : a1.id = some A) (hB2 : a2.id = some B) (hC : a3.id = some C)
    (hAne : A ≠ "") (hBne : B ≠ "") (hCne : C ≠ "")
    (hAB : A ≠ B) (hCB : C ≠ B)
    (hdid : curd.designId = none)
    (hcuratts : curd.attachments = some [a1, a2, a3])
    (hbmem : b ∈ newAtts) (hbid : b.id = some B)
    (hnew : ∀ x ∈ newAtts, x.id = some B)
    (hpdatts : pd.attachments = some newAtts) :
    ∃ payload,
      updatePlayElement ⟨i, some pe, some pd, some ⟨curpe, some curd⟩⟩ fetched =
        .ok [.updateElement payload] := by
  refine ⟨buildUpdatePayload i
      (if (newAtts.any fun a => a.errors ≠ []) = true ∧ pe.publishStateType = some 4
        then { pe with publishStateType := some 1 } else pe)
      { pd with attachments := some (cleanAttachments newAtts) }, ?_⟩
  simp only [updatePlayElement, hcuratts, hpdatts, Option.getD_some,
    designIdTruthy, hdid]
  simp

/-- Witness for C10 at a concrete document. -/
theorem missing_design_id_skips_deletion_witness :
    ∃ payload,
      updatePlayElement
        ⟨"i", some {}, some { attachments := some [{ id := some "B" }] },
          some ⟨none, some { designId := none, attachments := some [{ id := some "A" }, { id := some "B" }, { id := some "C" }] }⟩⟩
        {} =
        .ok [.updateElement payload] :=
  missing_design_id_skips_deletion "i" "A" "B" "C"
    { id := some "A" } { id := some "B" } { id := some "C" } { id := some "B" }
    [{ id := some "B" }] {} { attachments := some [{ id := some "B" }] } none
    { designId := none, attachments := some [{ id := some "A" }, { id := some "B" }, { id := some "C" }] } {}
    rfl rfl rfl (by decide) (by decide) (by decide) (by decide) (by decide)
    rfl rfl (by simp) rfl (by simp) rfl

/-- Every attachment of the cleaned list has an empty error list. -/
theorem cleanAttachments_errors (atts : List Attachment) :
    ∀ a ∈ cleanAttachments atts, a.errors = [] := by
  intro a ha
  obtain ⟨x, hx, hfx⟩ := List.mem_map.mp ha
  by_cases he : x.errors = []
  · simp [he] at hfx
    rw [← hfx, he]
  · simp [he] at hfx
    rw [← hfx]

/-- C2: when the new design carries at least one attachment with a non-empty
error list and the element's publish state is `ERROR (4)`, the submitted
payload (the unique update call of the trace) has publish state `DRAFT (1)`
and every submitted attachment's error list is empty.  Moreover the clearing
is performed on structural copies and the caller-passed `playElement` /
`playElementDesign` objects are not mutated: in the heap model of the same
source lines (`hCleanStep`), the submitted element, design object, and
attachments array are freshly allocated nodes distinct from every node of the
caller's element and design, and every submitted attachment is either a
caller attachment with an already-empty error list passed through by
reference or a fresh spread copy — so no write ever goes through a
caller-held reference (an in-place-clearing implementation would keep the
caller node ids on the modified values and violate these conjuncts). -/
theorem error_state_recovery
    (i : String) (pe : PlayElement) (pd : PlayElementDesign)
    (atts : List Attachment) (e : Attachment)
    (ocur : Option PlayElementResponse) (fetched : PlayElementResponse)
    (hpe2 : HeapModel.HElem) (hpd2 : HeapModel.HDesign)
    (he2 : HeapModel.HAttachment) (n0 : Nat)
    (hpdatts : pd.attachments = some atts)
    (herr : e ∈ atts) (hene : e.errors ≠ [])
    (hstate : pe.publishStateType = some 4)
    (hwf : ∀ j ∈ HeapModel.idsOfElem hpe2 ++ HeapModel.idsOfDesign hpd2, j < n0)
    (hherr : he2 ∈ hpd2.attachments) (hhene : he2.errors ≠ [])
    (hhstate : hpe2.publishStateType = some 4) :
    (∃ calls,
      updatePlayElement ⟨i, some pe, some pd, ocur⟩ fetched = .ok calls ∧
      (∃ payload, RpcCall.updateElement payload ∈ calls) ∧
      ∀ payload, RpcCall.updateElement payload ∈ calls →
        payload.publishState = 1 ∧ ∀ a ∈ payload.attachments, a.errors = []) ∧
    ((HeapModel.hCleanStep hpe2 hpd2 n0).1.publishStateType = some 1 ∧
     (∀ a ∈ (HeapModel.hCleanStep hpe2 hpd2 n0).2.1.attachments, a.errors = []) ∧
     (HeapModel.hCleanStep hpe2 hpd2 n0).1.nodeId ∉
       HeapModel.idsOfElem hpe2 ++ HeapModel.idsOfDesign hpd2 ∧
     (HeapModel.hCleanStep hpe2 hpd2 n0).2.1.nodeId ∉
       HeapModel.idsOfElem hpe2 ++ HeapModel.idsOfDesign hpd2 ∧
     (HeapModel.hCleanStep hpe2 hpd2 n0).2.1.attsArrId ∉
       HeapModel.idsOfElem hpe2 ++ HeapModel.idsOfDesign hpd2 ∧
     ∀ a ∈ (HeapModel.hCleanStep hpe2 hpd2 n0).2.1.attachments,
       a ∈ hpd2.attachments ∨
         a.nodeId ∉ HeapModel.idsOfElem hpe2 ++ HeapModel.idsOfDesign hpd2) := by
  constructor
  · have hany : (atts.any fun a => decide (a.errors ≠ [])) = true :=
      List.any_eq_true.mpr ⟨e, herr, by simpa using hene⟩
    refine ⟨_, rfl, ?_, ?_⟩
    · exact ⟨_, List.mem_append_right _ (List.mem_singleton.mpr rfl)⟩
    · intro payload hmem
      simp only [List.mem_append, List.mem_singleton] at hmem
      rcases hmem with (hmem | hmem) | hmem
      · cases ocur <;> simp at hmem
      · rcases hdt : designIdTruthy (ocur.getD fetched) with _ | did <;> simp [hdt] at hmem
      · have hpayload := hmem
        rw [RpcCall.updateElement.injEq] at hpayload
        subst hpayload
        constructor
        · simp only [buildUpdatePayload, hpdatts, hany, hstate]
          simp
        · simp only [buildUpdatePayload, hpdatts]
          intro a ha
          obtain ⟨x, hx, hxa⟩ :
              ∃ x ∈ cleanAttachments atts, ensureAttachment x = a := by simpa using ha
          rw [← hxa]
          simpa [ensureAttachment] using cleanAttachments_errors atts x hx
  · have hany2 : (hpd2.attachments.any fun a => decide (a.errors ≠ [])) = true :=
      List.any_eq_true.mpr ⟨he2, hherr, by simpa using hhene⟩
    have hle := HeapModel.hCleanAttachments_le hpd2.attachments n0
    have hstep : HeapModel.hCleanStep hpe2 hpd2 n0 =
        (⟨(HeapModel.hCleanAttachments hpd2.attachments n0).2 + 2, hpe2.id, hpe2.name, hpe2.description, some 1⟩,
         ⟨(HeapModel.hCleanAttachments hpd2.attachments n0).2, hpd2.designId,
           (HeapModel.hCleanAttachments hpd2.attachments n0).2 + 1,
           (HeapModel.hCleanAttachments hpd2.attachments n0).1⟩,
         (HeapModel.hCleanAttachments hpd2.attachments n0).2 + 3) := by
      rw [HeapModel.hCleanStep]
      rw [if_pos ⟨hany2, hhstate⟩]
    rw [hstep]
    refine ⟨rfl, ?_, ?_, ?_, ?_, ?_⟩
    · intro a ha
      exact HeapModel.hCleanAttachments_errors hpd2.attachments n0 a ha
    · intro hmem
      have := hwf _ hmem
      simp at this
      omega
    · intro hmem
      have := hwf _ hmem
      simp at this
      omega
    · intro hmem
      have := hwf _ hmem
      simp at this
      omega
    · intro a ha
      rcases HeapModel.hCleanAttachments_mem_or_fresh hpd2.attachments n0 a ha with hm | hb
      · exact Or.inl hm
      · right
        intro hmem
        have := hwf _ hmem
        omega

/-- Witness for C2 at a concrete document (trace model) and a concrete heap
document holding the same erroneous attachment scenario. -/
theorem error_state_recovery_witness :
    (∃ calls,
      updatePlayElement
        ⟨"i", some { publishStateType := some 4 },
          some { attachments := some [{ errors := ["boom"] }] }, some {}⟩ {} =
        .ok calls ∧
      (∃ payload, RpcCall.updateElement payload ∈ calls) ∧
      ∀ payload, RpcCall.updateElement payload ∈ calls →
        payload.publishState = 1 ∧ ∀ a ∈ payload.attachments, a.errors = []) ∧
    ((HeapModel.hCleanStep ⟨2, none, none, none, some 4⟩ ⟨3, none, 4, [⟨5, none, none, none, 2, none, none, none, ["boom"]⟩]⟩ 6).1.publishStateType = some 1 ∧
     (∀ a ∈ (HeapModel.hCleanStep ⟨2, none, none, none, some 4⟩ ⟨3, none, 4, [⟨5, none, none, none, 2, none, none, none, ["boom"]⟩]⟩ 6).2.1.attachments, a.errors = []) ∧
     (HeapModel.hCleanStep ⟨2, none, none, none, some 4⟩ ⟨3, none, 4, [⟨5, none, none, none, 2, none, none, none, ["boom"]⟩]⟩ 6).1.nodeId ∉
       HeapModel.idsOfElem ⟨2, none, none, none, some 4⟩ ++ HeapModel.idsOfDesign ⟨3, none, 4, [⟨5, none, none, none, 2, none, none, none, ["boom"]⟩]⟩ ∧
     (HeapModel.hCleanStep ⟨2, none, none, none, some 4⟩ ⟨3, none, 4, [⟨5, none, none, none, 2, none, none, none, ["boom"]⟩]⟩ 6).2.1.nodeId ∉
       HeapModel.idsOfElem ⟨2, none, none, none, some 4⟩ ++ HeapModel.idsOfDesign ⟨3, none, 4, [⟨5, none, none, none, 2, none, none, none, ["boom"]⟩]⟩ ∧
     (HeapModel.hCleanStep ⟨2, none, none, none, some 4⟩ ⟨3, none, 4, [⟨5, none, none, none, 2, none, none, none, ["boom"]⟩]⟩ 6).2.1.attsArrId ∉
       HeapModel.idsOfElem ⟨2, none, none, none, some 4⟩ ++ HeapModel.idsOfDesign ⟨3, none, 4, [⟨5, none, none, none, 2, none, none, none, ["boom"]⟩]⟩ ∧
     ∀ a ∈ (HeapModel.hCleanStep ⟨2, none, none, none, some 4⟩ ⟨3, none, 4, [⟨5, none, none, none, 2, none, none, none, ["boom"]⟩]⟩ 6).2.1.attachments,
       a ∈ (⟨3, none, 4, [⟨5, none, none, none, 2, none, none, none, ["boom"]⟩]⟩ : HeapModel.HDesign).attachments ∨
         a.nodeId ∉ HeapModel.idsOfElem ⟨2, none, none, none, some 4⟩ ++ HeapModel.idsOfDesign ⟨3, none, 4, [⟨5, none, none, none, 2, none, none, none, ["boom"]⟩]⟩) :=
  error_state_recovery "i" { publishStateType := some 4 }
    { attachments := some [{ errors := ["boom"] }] }
    [{ errors := ["boom"] }] { errors := ["boom"] } (some {}) {}
    ⟨2, none, none, none, some 4⟩
    ⟨3, none, 4, [⟨5, none, none, none, 2, none, none, none, ["boom"]⟩]⟩
    ⟨5, none, none, none, 2, none, none, none, ["boom"]⟩ 6
    rfl (by simp) (by decide) rfl (by decide) (by simp) (by decide) rfl

end BF6
